import Mathlib

/-!
Verification of the configuration-resolution and bucket-lifecycle engine of
the `ibmcloud-object-storage-plugin` provisioner
(`src/provisioner/ibm-s3fs-provisioner.go`).

The Go source is shallowly embedded below.  Collaborators (secret store,
object-storage backend, UUID generator) are modelled as response functions
supplied in an `IBMS3fsProvisioner` record, mirroring the Go struct fields
`Client`, `Backend` and `UUIDGenerator`.  Every call made to a collaborator
is recorded in a trace of `Event`s so that claims of the form "no backend
call happens before X" are statable.  Go errors (created with `fmt.Errorf` /
`errors.New`) are embedded as constructors of `PError`, one constructor per
error site of the source, carrying the data interpolated into the message.
-/

set_option autoImplicit false

namespace S3fs

/-- PVC annotations, embedding of the Go struct `pvcAnnotations`
(`ibm-s3fs-provisioner.go` lines 32-48).  All numeric tuning fields are
strings, exactly as in the source. -/
structure PvcAnnotations where
  autoCreateBucket : Bool
  autoDeleteBucket : Bool
  bucket : String
  objectPath : String
  endpoint : String
  region : String
  secretName : String
  chunkSizeMB : String
  parallelCount : String
  multiReqMax : String
  statCacheSize : String
  s3fsFuseRetryCount : String
  statCacheExpireSeconds : String
  iamEndpoint : String
  validateBucket : String
  deriving DecidableEq, Repr

/-- PV annotations, embedding of the Go struct `pvAnnotations` (lines 51-54):
the PVC annotations plus the secret namespace captured at provisioning time. -/
structure PvAnnotations where
  pvc : PvcAnnotations
  secretNamespace : String
  deriving DecidableEq, Repr

/-- Storage-class options, embedding of the Go struct `scOptions`
(lines 57-70).  Numeric tuning fields are already typed integers here. -/
structure ScOptions where
  chunkSizeMB : Int
  parallelCount : Int
  multiReqMax : Int
  statCacheSize : Int
  tlsCipherSuite : String
  debugLevel : String
  curlDebug : Bool
  kernelCache : Bool
  s3fsFuseRetryCount : Int
  iamEndpoint : String
  osEndpoint : String
  osStorageClass : String
  deriving DecidableEq, Repr

/-- Embedding of `backend.ObjectStorageCredentials` as used by the source:
the four key fields plus the IAM endpoint set by the workflows. -/
structure ObjectStorageCredentials where
  accessKey : String
  secretKey : String
  apiKey : String
  serviceInstanceID : String
  iamEndpoint : String
  deriving DecidableEq, Repr

/-- A Kubernetes secret, reduced to its string data map (the only part the
source reads). -/
structure Secret where
  data : List (String × String)
  deriving DecidableEq, Repr

/-- One collaborator call made by the engine; `Provision`/`Delete` produce a
trace of these alongside their result. -/
inductive Event where
  | getSecret (secretNamespace secretName : String)
  | uuidNew
  | newSession (endpoint region : String) (creds : ObjectStorageCredentials)
  | createBucket (bucket : String)
  | checkBucketAccess (bucket : String)
  | checkObjectPathExistence (bucket objectPath : String)
  | deleteBucket (bucket : String)
  deriving DecidableEq, Repr

/-- Embedding of the error values produced by the source, one constructor per
`fmt.Errorf`/`errors.New` site, carrying the interpolated data.  The
`nilSessionPanic` constructor models the Go nil-pointer dereference that
occurs when a backend method is invoked on the never-initialized session
variable `sess` (the operation is not total there). -/
inductive PError where
  | badOSEndpoint (endpoint : String)
  | badIAMEndpoint (endpoint : String)
  | configParse (field value : String)
  | negStatCacheExpireSeconds
  | objectPathWithAutoCreate (objectPath : String)
  | autoDeleteWithoutAutoCreate
  | bucketWithAutoDelete (bucket : String)
  | bucketNotSpecified
  | uuidFailed (msg : String)
  | credentialError (msg : String)
  | missingServiceInstanceID
  | createBucketFailed (bucket msg : String)
  | accessBucketFailed (bucket msg : String)
  | objectPathCheckFailed (bucket objectPath msg : String)
  | objectPathNotFound (bucket objectPath : String)
  | nilSessionPanic
  | deleteBucketBackend (msg : String)
  | cannotDeleteBucket (e : PError)
  deriving DecidableEq, Repr

/-- Classification of `PError` values as the spec taxonomy's `ValidationError`
(cross-field policy violation, missing bucket, bad endpoint scheme,
object-path not found, missing service-instance-id, negative
stat-cache-expire-seconds). -/
def PError.isValidationError : PError → Bool
  | .badOSEndpoint _ => true
  | .badIAMEndpoint _ => true
  | .negStatCacheExpireSeconds => true
  | .objectPathWithAutoCreate _ => true
  | .autoDeleteWithoutAutoCreate => true
  | .bucketWithAutoDelete _ => true
  | .bucketNotSpecified => true
  | .missingServiceInstanceID => true
  | .objectPathNotFound _ _ => true
  | _ => false

/-- Classification of `PError` values as the spec taxonomy's
`ConfigParseError` (malformed numeric string). -/
def PError.isConfigParseError : PError → Bool
  | .configParse _ _ => true
  | _ => false

/-- Responses of one backend object-storage session
(`backend.ObjectStorageSession` methods used by the source).  `CreateBucket`
returns an informational message and an optional error; `DeleteBucket` and
`CheckBucketAccess` return an optional error; `CheckObjectPathExistence`
returns a boolean or an error. -/
structure SessionCalls where
  createBucket : String → String × Option String
  checkBucketAccess : String → Option String
  checkObjectPathExistence : String → String → Except String Bool
  deleteBucket : String → Option String

/-- The provisioner with its collaborators, embedding of the Go struct
`IBMS3fsProvisioner` (lines 79-88): the backend session factory, the secret
store (namespace → name → secret) and the UUID generator. -/
structure IBMS3fsProvisioner where
  newObjectStorageSession : String → String → ObjectStorageCredentials → SessionCalls
  getSecretFromStore : String → String → Except String Secret
  uuidGenerator : Except String String

/-- Modelled from the spec: the secret field names read by the credential
resolver (`driver.SecretAPIKey` and friends live in the `driver` package,
which is not under `src/`; §4.3 of the spec names the fields API-key,
service-instance-id, access-key and secret-key).  Only their distinctness
matters. -/
def SecretAPIKey : String := "api-key"

/-- Modelled from the spec: see `SecretAPIKey`. -/
def SecretAccessKey : String := "access-key"

/-- Modelled from the spec: see `SecretAPIKey`. -/
def SecretSecretKey : String := "secret-key"

/-- Modelled from the spec: see `SecretAPIKey`. -/
def SecretServiceInstanceID : String := "service-instance-id"

/-- The literal prefix of generated bucket names (line 74 of the source). -/
def autoBucketNamePrefix : String := "tmp-s3fs-"

/-- The FlexVolume driver name constant (line 73 of the source). -/
def driverName : String := "ibm/ibmc-s3fs"

/-- Embedding of `parseSecret` (lines 92-99): look up one key of the secret's
data map, failing with the key name when absent. -/
def parseSecret (secret : Secret) (keyName : String) : Except String String :=
  match secret.data.lookup keyName with
  | some v => .ok v
  | none => .error (keyName ++ " secret missing")

/-- Embedding of `getCredentials` (lines 101-131).  Faithful to the source's
quirk: in the API-key branch the error from reading the service-instance-id
field is discarded, so a missing service-instance-id yields an empty string
and a success result. -/
def getCredentials (p : IBMS3fsProvisioner) (secretName secretNamespace : String) :
    Except String ObjectStorageCredentials :=
  match p.getSecretFromStore secretNamespace secretName with
  | .error e => .error ("cannot get secret " ++ secretName ++ ": " ++ e)
  | .ok secrets =>
    match parseSecret secrets SecretAPIKey with
    | .ok apiKey =>
      let serviceInstanceID :=
        match parseSecret secrets SecretServiceInstanceID with
        | .ok v => v
        | .error _ => ""
      .ok { accessKey := "", secretKey := "", apiKey := apiKey,
            serviceInstanceID := serviceInstanceID, iamEndpoint := "" }
    | .error _ =>
      match parseSecret secrets SecretAccessKey with
      | .error e => .error e
      | .ok accessKey =>
        match parseSecret secrets SecretSecretKey with
        | .error e => .error e
        | .ok secretKey =>
          .ok { accessKey := accessKey, secretKey := secretKey, apiKey := "",
                serviceInstanceID := "", iamEndpoint := "" }

/-- Accumulate a decimal value over characters, failing on a non-digit. -/
def digitsToNatCore : List Char → Nat → Option Nat
  | [], acc => some acc
  | c :: cs, acc =>
    if c.isDigit then digitsToNatCore cs (acc * 10 + (c.toNat - 48)) else none

/-- Value of a non-empty all-digit character list, `none` otherwise. -/
def digitsToNat? (cs : List Char) : Option Nat :=
  match cs with
  | [] => none
  | _ => digitsToNatCore cs 0

/-- Embedding of Go `strconv.Atoi` (64-bit platform): optional sign followed
by a non-empty digit string whose signed value fits the 64-bit int range
`[-9223372036854775808, 9223372036854775807]`; an all-digit string outside
that range fails with `ErrRange`, which the callers of lines 188-220 treat
like any other conversion failure. -/
def atoi? (s : String) : Option Int :=
  match s.data with
  | '-' :: rest =>
    match digitsToNat? rest with
    | some n => if n ≤ 9223372036854775808 then some (-(n : Int)) else none
    | none => none
  | '+' :: rest =>
    match digitsToNat? rest with
    | some n => if n ≤ 9223372036854775807 then some (n : Int) else none
    | none => none
  | cs =>
    match digitsToNat? cs with
    | some n => if n ≤ 9223372036854775807 then some (n : Int) else none
    | none => none

/-- Go `strings.HasPrefix s pre` (character-level, so that it evaluates by
kernel reduction). -/
def strStartsWith (s pre : String) : Bool := pre.data.isPrefixOf s.data

/-- The endpoint scheme test of lines 169 and 180: `strings.HasPrefix`
against the two accepted schemes. -/
def schemeOK (s : String) : Bool :=
  strStartsWith s "https://" || strStartsWith s "http://"

/-- One numeric override block of lines 187-220: if the claim supplies a
non-empty string it must parse as an integer and replaces the class value,
else the class value stands. -/
def overrideInt (field claimVal : String) (classVal : Int) : Except PError Int :=
  if claimVal != "" then
    match atoi? claimVal with
    | none => .error (.configParse field claimVal)
    | some n => .ok n
  else .ok classVal

/-- Embedding of the endpoint segment of `Provision` (lines 157-185):
claim-level endpoint/region overrides, the object-store-endpoint scheme
check, the iam-endpoint override and its scheme check, in source order. -/
def mergeEndpoints (pvc : PvcAnnotations) (sc0 : ScOptions) : Except PError ScOptions :=
  let sc1 := if pvc.endpoint != "" then { sc0 with osEndpoint := pvc.endpoint } else sc0
  let sc2 := if pvc.region != "" then { sc1 with osStorageClass := pvc.region } else sc1
  if !(schemeOK sc2.osEndpoint) then .error (.badOSEndpoint sc2.osEndpoint) else
  let sc3 := if pvc.iamEndpoint != "" then { sc2 with iamEndpoint := pvc.iamEndpoint } else sc2
  if !(schemeOK sc3.iamEndpoint) then .error (.badIAMEndpoint sc3.iamEndpoint) else
  .ok sc3

/-- Embedding of the numeric segment of `Provision` (lines 187-230): the
five claim-level numeric overrides and the stat-cache-expire-seconds
check, in source order. -/
def mergeNumerics (pvc : PvcAnnotations) (sc3 : ScOptions) : Except PError ScOptions :=
  match overrideInt "s3fs-fuse-retry-count" pvc.s3fsFuseRetryCount sc3.s3fsFuseRetryCount with
  | .error e => .error e
  | .ok retry =>
  match overrideInt "chunk-size-mb" pvc.chunkSizeMB sc3.chunkSizeMB with
  | .error e => .error e
  | .ok chunk =>
  match overrideInt "parallel-count" pvc.parallelCount sc3.parallelCount with
  | .error e => .error e
  | .ok par =>
  match overrideInt "multireq-max" pvc.multiReqMax sc3.multiReqMax with
  | .error e => .error e
  | .ok multi =>
  match overrideInt "stat-cache-size" pvc.statCacheSize sc3.statCacheSize with
  | .error e => .error e
  | .ok statCache =>
  let sc8 := { sc3 with s3fsFuseRetryCount := retry, chunkSizeMB := chunk,
                        parallelCount := par, multiReqMax := multi,
                        statCacheSize := statCache }
  if pvc.statCacheExpireSeconds != "" then
    match atoi? pvc.statCacheExpireSeconds with
    | none => .error (.configParse "stat-cache-expire-seconds" pvc.statCacheExpireSeconds)
    | some n => if n < 0 then .error .negStatCacheExpireSeconds else .ok sc8
  else .ok sc8

/-- Embedding of the configuration-resolution segment of `Provision`
(lines 157-230): the endpoint segment followed by the numeric segment. -/
def mergeConfig (pvc : PvcAnnotations) (sc0 : ScOptions) : Except PError ScOptions :=
  match mergeEndpoints pvc sc0 with
  | .error e => .error e
  | .ok sc3 => mergeNumerics pvc sc3

/-- The effective object-store endpoint after the claim-over-class override
of lines 159-161. -/
def effectiveOSEndpoint (pvc : PvcAnnotations) (sc : ScOptions) : String :=
  if pvc.endpoint != "" then pvc.endpoint else sc.osEndpoint

/-- The effective storage-class region after the claim-over-class override
of lines 165-167. -/
def effectiveRegion (pvc : PvcAnnotations) (sc : ScOptions) : String :=
  if pvc.region != "" then pvc.region else sc.osStorageClass

/-- The effective IAM endpoint after the claim-over-class override of
lines 176-178. -/
def effectiveIAMEndpoint (pvc : PvcAnnotations) (sc : ScOptions) : String :=
  if pvc.iamEndpoint != "" then pvc.iamEndpoint else sc.iamEndpoint

/-- The first claim-level numeric field, in resolution order, whose value is
non-empty and non-numeric, together with that value. -/
def firstBadNumeric (pvc : PvcAnnotations) : Option (String × String) :=
  if pvc.s3fsFuseRetryCount != "" && (atoi? pvc.s3fsFuseRetryCount).isNone then
    some ("s3fs-fuse-retry-count", pvc.s3fsFuseRetryCount)
  else if pvc.chunkSizeMB != "" && (atoi? pvc.chunkSizeMB).isNone then
    some ("chunk-size-mb", pvc.chunkSizeMB)
  else if pvc.parallelCount != "" && (atoi? pvc.parallelCount).isNone then
    some ("parallel-count", pvc.parallelCount)
  else if pvc.multiReqMax != "" && (atoi? pvc.multiReqMax).isNone then
    some ("multireq-max", pvc.multiReqMax)
  else if pvc.statCacheSize != "" && (atoi? pvc.statCacheSize).isNone then
    some ("stat-cache-size", pvc.statCacheSize)
  else none

/-- Embedding of the policy-validation and bucket-name-generation segment of
`Provision` (lines 232-253), in source order: object-path/auto-create
exclusion; then, under auto-delete, the auto-create requirement, the
explicit-bucket exclusion, and name generation from the UUID generator;
else the non-empty-bucket requirement. -/
def resolveBucket (uuid : Except String String) (pvc : PvcAnnotations) :
    List Event × Except PError PvcAnnotations :=
  if pvc.autoCreateBucket && pvc.objectPath != "" then
    ([], .error (.objectPathWithAutoCreate pvc.objectPath))
  else if pvc.autoDeleteBucket then
    if !pvc.autoCreateBucket then ([], .error .autoDeleteWithoutAutoCreate)
    else if pvc.bucket != "" then ([], .error (.bucketWithAutoDelete pvc.bucket))
    else
      match uuid with
      | .error e => ([Event.uuidNew], .error (.uuidFailed e))
      | .ok id => ([Event.uuidNew], .ok { pvc with bucket := autoBucketNamePrefix ++ id })
  else if pvc.bucket == "" then ([], .error .bucketNotSpecified)
  else ([], .ok pvc)

/-- The access-validation decision of lines 255-259: `valBucket` is false
exactly when the claim set `validate-bucket` to `"no"` and auto-create is
disabled. -/
def valBucket (pvc : PvcAnnotations) : Bool :=
  !(pvc.validateBucket == "no" && !pvc.autoCreateBucket)

/-- Embedding of the credential-resolution/session-opening step of
`Provision` (lines 262-270): only when `valBucket`, resolve credentials,
set their IAM endpoint from the merged config and open one backend session. -/
def credsStep (p : IBMS3fsProvisioner) (secretNamespace : String) (sc : ScOptions)
    (pvc : PvcAnnotations) :
    List Event × Except PError (Option (ObjectStorageCredentials × SessionCalls)) :=
  if valBucket pvc then
    match getCredentials p pvc.secretName secretNamespace with
    | .error e => ([Event.getSecret secretNamespace pvc.secretName], .error (.credentialError e))
    | .ok creds0 =>
      let creds := { creds0 with iamEndpoint := sc.iamEndpoint }
      ([Event.getSecret secretNamespace pvc.secretName,
        Event.newSession sc.osEndpoint sc.osStorageClass creds],
       .ok (some (creds, p.newObjectStorageSession sc.osEndpoint sc.osStorageClass creds)))
  else ([], .ok none)

/-- Embedding of the bucket-creation step of `Provision` (lines 272-283):
under auto-create, API-key credentials without a service-instance-id are
rejected, then the backend create call runs (its informational message is
only logged).  Dereferencing the absent credentials/session is the
`nilSessionPanic` outcome (unreachable here because auto-create forces
`valBucket`). -/
def createStep (pvc : PvcAnnotations)
    (sessOpt : Option (ObjectStorageCredentials × SessionCalls)) :
    List Event × Except PError Unit :=
  if pvc.autoCreateBucket then
    match sessOpt with
    | none => ([], .error .nilSessionPanic)
    | some (creds, sess) =>
      if creds.apiKey != "" && creds.serviceInstanceID == "" then
        ([], .error .missingServiceInstanceID)
      else
        match sess.createBucket pvc.bucket with
        | (_, some e) => ([Event.createBucket pvc.bucket], .error (.createBucketFailed pvc.bucket e))
        | (_, none) => ([Event.createBucket pvc.bucket], .ok ())
  else ([], .ok ())

/-- Embedding of the access-check step of `Provision` (lines 285-290). -/
def accessStep (pvc : PvcAnnotations)
    (sessOpt : Option (ObjectStorageCredentials × SessionCalls)) :
    List Event × Except PError Unit :=
  if valBucket pvc then
    match sessOpt with
    | none => ([], .error .nilSessionPanic)
    | some (_, sess) =>
      match sess.checkBucketAccess pvc.bucket with
      | some e => ([Event.checkBucketAccess pvc.bucket], .error (.accessBucketFailed pvc.bucket e))
      | none => ([Event.checkBucketAccess pvc.bucket], .ok ())
  else ([], .ok ())

/-- Embedding of the object-path existence-check step of `Provision`
(lines 292-299).  When the session was never opened (`valBucket` false) the
Go code dereferences the nil `sess`, modelled as `nilSessionPanic` with no
backend call recorded. -/
def pathStep (pvc : PvcAnnotations)
    (sessOpt : Option (ObjectStorageCredentials × SessionCalls)) :
    List Event × Except PError Unit :=
  if pvc.objectPath != "" then
    match sessOpt with
    | none => ([], .error .nilSessionPanic)
    | some (_, sess) =>
      match sess.checkObjectPathExistence pvc.bucket pvc.objectPath with
      | .error e =>
        ([Event.checkObjectPathExistence pvc.bucket pvc.objectPath],
         .error (.objectPathCheckFailed pvc.bucket pvc.objectPath e))
      | .ok false =>
        ([Event.checkObjectPathExistence pvc.bucket pvc.objectPath],
         .error (.objectPathNotFound pvc.bucket pvc.objectPath))
      | .ok true =>
        ([Event.checkObjectPathExistence pvc.bucket pvc.objectPath], .ok ())
  else ([], .ok ())

/-- The bucket-lifecycle segment of `Provision` (lines 255-299): credential
resolution/session opening, creation, access check and object-path check in
order, short-circuiting on the first error while keeping the events already
emitted. -/
def lifecycle (p : IBMS3fsProvisioner) (secretNamespace : String) (sc : ScOptions)
    (pvc : PvcAnnotations) : List Event × Except PError Unit :=
  match credsStep p secretNamespace sc pvc with
  | (e1, .error e) => (e1, .error e)
  | (e1, .ok sessOpt) =>
    match createStep pvc sessOpt with
    | (e2, .error e) => (e1 ++ e2, .error e)
    | (e2, .ok _) =>
      match accessStep pvc sessOpt with
      | (e3, .error e) => (e1 ++ e2 ++ e3, .error e)
      | (e3, .ok _) =>
        match pathStep pvc sessOpt with
        | (e4, r) => (e1 ++ e2 ++ e3 ++ e4, r)

/-- Render a `Bool` the way Go's JSON marshalling of a `,string`-tagged bool
does. -/
def boolStr (b : Bool) : String := if b then "true" else "false"

/-- Modelled from the spec: `parser.MarshalToMap` applied to `pvAnnotations`
(the `utils/parser` package is not under `src/`; §4.5 requires every field
written by `build` to be exactly recoverable by `parse`).  The keys are the
annotation keys of §6, i.e. the struct's JSON tags. -/
def marshalPVAnnotations (a : PvAnnotations) : List (String × String) :=
  [("ibm.io/auto-create-bucket", boolStr a.pvc.autoCreateBucket),
   ("ibm.io/auto-delete-bucket", boolStr a.pvc.autoDeleteBucket),
   ("ibm.io/bucket", a.pvc.bucket),
   ("ibm.io/object-path", a.pvc.objectPath),
   ("ibm.io/endpoint", a.pvc.endpoint),
   ("ibm.io/region", a.pvc.region),
   ("ibm.io/secret-name", a.pvc.secretName),
   ("ibm.io/chunk-size-mb", a.pvc.chunkSizeMB),
   ("ibm.io/parallel-count", a.pvc.parallelCount),
   ("ibm.io/multireq-max", a.pvc.multiReqMax),
   ("ibm.io/stat-cache-size", a.pvc.statCacheSize),
   ("ibm.io/s3fs-fuse-retry-count", a.pvc.s3fsFuseRetryCount),
   ("ibm.io/stat-cache-expire-seconds", a.pvc.statCacheExpireSeconds),
   ("ibm.io/iam-endpoint", a.pvc.iamEndpoint),
   ("ibm.io/validate-bucket", a.pvc.validateBucket),
   ("ibm.io/secret-namespace", a.secretNamespace)]

/-- Go map indexing with the string zero value for a missing key (as used on
`FlexVolume.Options` in `Delete`, lines 361-363). -/
def lookupD (m : List (String × String)) (k : String) : String :=
  (m.lookup k).getD ""

/-- Parse the bool strings written by `marshalPVAnnotations` (missing or
unrecognized values default to the zero value `false`). -/
def parseBoolStr (s : String) : Bool := s == "true"

/-- Modelled from the spec: `parser.UnmarshalMap` into `pvAnnotations`
(the `utils/parser` package is not under `src/`; §4.5 requires `parse` to
recover every field written by `build`).  Missing keys yield zero values. -/
def unmarshalPVAnnotations (m : List (String × String)) : PvAnnotations :=
  { pvc :=
    { autoCreateBucket := parseBoolStr (lookupD m "ibm.io/auto-create-bucket"),
      autoDeleteBucket := parseBoolStr (lookupD m "ibm.io/auto-delete-bucket"),
      bucket := lookupD m "ibm.io/bucket",
      objectPath := lookupD m "ibm.io/object-path",
      endpoint := lookupD m "ibm.io/endpoint",
      region := lookupD m "ibm.io/region",
      secretName := lookupD m "ibm.io/secret-name",
      chunkSizeMB := lookupD m "ibm.io/chunk-size-mb",
      parallelCount := lookupD m "ibm.io/parallel-count",
      multiReqMax := lookupD m "ibm.io/multireq-max",
      statCacheSize := lookupD m "ibm.io/stat-cache-size",
      s3fsFuseRetryCount := lookupD m "ibm.io/s3fs-fuse-retry-count",
      statCacheExpireSeconds := lookupD m "ibm.io/stat-cache-expire-seconds",
      iamEndpoint := lookupD m "ibm.io/iam-endpoint",
      validateBucket := lookupD m "ibm.io/validate-bucket" },
    secretNamespace := lookupD m "ibm.io/secret-namespace" }

/-- Modelled from the spec: `parser.MarshalToMap` applied to `driver.Options`
(lines 301-317; the `driver` package is not under `src/`).  Per §6 the keys
are the resolved tuning parameters under their names without the `ibm.io/`
prefix — `Delete` reads back `object-store-endpoint`,
`object-store-storage-class` and `iam-endpoint` from this map. -/
def marshalDriverOptions (sc : ScOptions) (pvc : PvcAnnotations) : List (String × String) :=
  [("chunk-size-mb", toString sc.chunkSizeMB),
   ("parallel-count", toString sc.parallelCount),
   ("multireq-max", toString sc.multiReqMax),
   ("stat-cache-size", toString sc.statCacheSize),
   ("tls-cipher-suite", sc.tlsCipherSuite),
   ("curl-debug", boolStr sc.curlDebug),
   ("kernel-cache", boolStr sc.kernelCache),
   ("debug-level", sc.debugLevel),
   ("s3fs-fuse-retry-count", toString sc.s3fsFuseRetryCount),
   ("stat-cache-expire-seconds", pvc.statCacheExpireSeconds),
   ("iam-endpoint", sc.iamEndpoint),
   ("object-store-endpoint", sc.osEndpoint),
   ("object-store-storage-class", sc.osStorageClass),
   ("bucket", pvc.bucket),
   ("object-path", pvc.objectPath)]

/-- The persistent volume returned by `Provision` and consumed by `Delete`,
reduced to the parts the source reads: metadata annotations and the
FlexVolume source (lines 330-351). -/
structure PersistentVolume where
  name : String
  annotations : List (String × String)
  flexDriver : String
  flexSecretRefName : String
  flexOptions : List (String × String)
  deriving DecidableEq, Repr

/-- The provisioning request, reduced to the parts the source reads:
the PVC's annotations (already unmarshalled), its namespace and names
(`controller.VolumeOptions`). -/
structure VolumeOptions where
  pvName : String
  pvcName : String
  pvcNamespace : String
  pvcAnnots : PvcAnnotations
  parameters : ScOptions
  deriving Repr

/-- Embedding of `Provision` (lines 134-352): configuration resolution,
policy validation with bucket-name generation, the bucket lifecycle, and
construction of the persistent volume carrying the marshalled PV
annotations and the FlexVolume driver options. -/
def Provision (p : IBMS3fsProvisioner) (options : VolumeOptions) :
    List Event × Except PError PersistentVolume :=
  let pvc := options.pvcAnnots
  match mergeConfig pvc options.parameters with
  | .error e => ([], .error e)
  | .ok sc =>
    match resolveBucket p.uuidGenerator pvc with
    | (evs1, .error e) => (evs1, .error e)
    | (evs1, .ok pvc1) =>
      match lifecycle p options.pvcNamespace sc pvc1 with
      | (evs2, .error e) => (evs1 ++ evs2, .error e)
      | (evs2, .ok _) =>
        (evs1 ++ evs2,
         .ok { name := options.pvName,
               annotations := marshalPVAnnotations
                 { pvc := pvc1, secretNamespace := options.pvcNamespace },
               flexDriver := driverName,
               flexSecretRefName := pvc1.secretName,
               flexOptions := marshalDriverOptions sc pvc1 })

/-- Embedding of `deleteBucket` (lines 380-389): resolve credentials from the
persisted secret name/namespace, set the IAM endpoint passed in from the
FlexVolume options, open a session on the passed endpoint/region and delete
the persisted bucket. -/
def deleteBucket (p : IBMS3fsProvisioner) (a : PvAnnotations)
    (endpointValue regionValue iamEndpoint : String) : List Event × Option PError :=
  match getCredentials p a.pvc.secretName a.secretNamespace with
  | .error e => ([Event.getSecret a.secretNamespace a.pvc.secretName],
                 some (.credentialError e))
  | .ok creds0 =>
    let creds := { creds0 with iamEndpoint := iamEndpoint }
    let sess := p.newObjectStorageSession endpointValue regionValue creds
    match sess.deleteBucket a.pvc.bucket with
    | some e =>
      ([Event.getSecret a.secretNamespace a.pvc.secretName,
        Event.newSession endpointValue regionValue creds,
        Event.deleteBucket a.pvc.bucket], some (.deleteBucketBackend e))
    | none =>
      ([Event.getSecret a.secretNamespace a.pvc.secretName,
        Event.newSession endpointValue regionValue creds,
        Event.deleteBucket a.pvc.bucket], none)

/-- Embedding of `Delete` (lines 355-378): read the three endpoint values
from the FlexVolume options map, unmarshal the PV annotations, and invoke
`deleteBucket` only when auto-delete is set; a `none` result is success. -/
def Delete (p : IBMS3fsProvisioner) (pv : PersistentVolume) : List Event × Option PError :=
  let endpointValue := lookupD pv.flexOptions "object-store-endpoint"
  let regionValue := lookupD pv.flexOptions "object-store-storage-class"
  let iamEndpoint := lookupD pv.flexOptions "iam-endpoint"
  let pvAnnots := unmarshalPVAnnotations pv.annotations
  if pvAnnots.pvc.autoDeleteBucket then
    match deleteBucket p pvAnnots endpointValue regionValue iamEndpoint with
    | (evs, some e) => (evs, some (.cannotDeleteBucket e))
    | (evs, none) => (evs, none)
  else ([], none)

instance instDecEqExcept {E A : Type} [DecidableEq E] [DecidableEq A] :
    DecidableEq (Except E A) :=
  fun a b =>
    match a, b with
    | .ok x, .ok y => decidable_of_iff (x = y) (by simp)
    | .error x, .error y => decidable_of_iff (x = y) (by simp)
    | .ok _, .error _ => isFalse (by simp)
    | .error _, .ok _ => isFalse (by simp)

/-- A secret holding API-key credentials with a service-instance-id, used to
instantiate the general theorems at concrete inputs. -/
def demoSecret : Secret := ⟨[(SecretAPIKey, "k1"), (SecretServiceInstanceID, "sid1")]⟩

/-- A secret holding an API-key but no service-instance-id field. -/
def demoSecretNoSID : Secret := ⟨[(SecretAPIKey, "k1")]⟩

/-- A backend session on which every operation succeeds. -/
def okSession : SessionCalls :=
  { createBucket := fun _ => ("", none),
    checkBucketAccess := fun _ => none,
    checkObjectPathExistence := fun _ _ => .ok true,
    deleteBucket := fun _ => none }

/-- A provisioner over an all-success backend, the `demoSecret` store and a
fixed UUID stream. -/
def demoProv : IBMS3fsProvisioner :=
  { newObjectStorageSession := fun _ _ _ => okSession,
    getSecretFromStore := fun _ _ => .ok demoSecret,
    uuidGenerator := .ok "u1" }

/-- Like `demoProv` but the stored secret lacks the service-instance-id. -/
def demoProvNoSID : IBMS3fsProvisioner :=
  { newObjectStorageSession := fun _ _ _ => okSession,
    getSecretFromStore := fun _ _ => .ok demoSecretNoSID,
    uuidGenerator := .ok "u1" }

/-- A plain claim: explicit bucket, no auto-create/delete, no overrides. -/
def basePvc : PvcAnnotations :=
  { autoCreateBucket := false, autoDeleteBucket := false, bucket := "b1", objectPath := "",
    endpoint := "", region := "", secretName := "s1", chunkSizeMB := "", parallelCount := "",
    multiReqMax := "", statCacheSize := "", s3fsFuseRetryCount := "",
    statCacheExpireSeconds := "", iamEndpoint := "", validateBucket := "" }

/-- A storage class with well-formed endpoints and typed tuning values. -/
def baseSc : ScOptions :=
  { chunkSizeMB := 16, parallelCount := 2, multiReqMax := 4, statCacheSize := 1000,
    tlsCipherSuite := "", debugLevel := "warn", curlDebug := false, kernelCache := false,
    s3fsFuseRetryCount := 5, iamEndpoint := "https://iam.example.com",
    osEndpoint := "https://s3.example.com", osStorageClass := "standard" }

/-- A base provisioning request built from `basePvc` and `baseSc`. -/
def baseOpts : VolumeOptions :=
  { pvName := "pv1", pvcName := "pvc1", pvcNamespace := "ns1",
    pvcAnnots := basePvc, parameters := baseSc }

/-- The first of the four policy rules of lines 232-252 (in the order the
source checks them) violated by the claim, with the error the source
produces there, or `none` if the claim passes all four. -/
def firstPolicyViolation (pvc : PvcAnnotations) : Option PError :=
  if pvc.autoCreateBucket && pvc.objectPath != "" then
    some (.objectPathWithAutoCreate pvc.objectPath)
  else if pvc.autoDeleteBucket && !pvc.autoCreateBucket then
    some .autoDeleteWithoutAutoCreate
  else if pvc.autoDeleteBucket && pvc.bucket != "" then
    some (.bucketWithAutoDelete pvc.bucket)
  else if !pvc.autoDeleteBucket && pvc.bucket == "" then
    some .bucketNotSpecified
  else none

/-- Extract the volume of a successful provisioning result (dummy record on
an error, used only to state closed facts about results known to be `ok`). -/
def pvOrDummy (r : Except PError PersistentVolume) : PersistentVolume :=
  match r with
  | .ok pv => pv
  | .error _ =>
    { name := "", annotations := [], flexDriver := "", flexSecretRefName := "", flexOptions := [] }

/-- An auto-create/auto-delete claim with no explicit bucket name. -/
def autoPvc : PvcAnnotations :=
  { basePvc with autoCreateBucket := true, autoDeleteBucket := true, bucket := "" }

/-- A provisioning request for `autoPvc`. -/
def autoOpts : VolumeOptions := { baseOpts with pvcAnnots := autoPvc }

/-- `autoPvc` after bucket-name generation with token `u1`. -/
def autoPvc1 : PvcAnnotations := { autoPvc with bucket := "tmp-s3fs-u1" }

/-- Request whose class endpoint differs from `autoOpts` only in host `a`. -/
def c1optsA : VolumeOptions :=
  { autoOpts with parameters := { baseSc with osEndpoint := "https://a.example.com" } }

/-- Request whose class endpoint differs from `autoOpts` only in host `b`. -/
def c1optsB : VolumeOptions :=
  { autoOpts with parameters := { baseSc with osEndpoint := "https://b.example.com" } }

/-- Persisted annotations of an auto-delete volume, for the Delete claims. -/
def c2annots : List (String × String) :=
  marshalPVAnnotations { pvc := autoPvc1, secretNamespace := "ns1" }

/-- An auto-delete volume whose options map points at endpoint host `a`. -/
def c2pvA : PersistentVolume :=
  { name := "pv1", annotations := c2annots, flexDriver := driverName,
    flexSecretRefName := "s1", flexOptions := [("object-store-endpoint", "https://a.example.com")] }

/-- Same annotations as `c2pvA` but an options map pointing at host `b`. -/
def c2pvB : PersistentVolume :=
  { name := "pv1", annotations := c2annots, flexDriver := driverName,
    flexSecretRefName := "s1", flexOptions := [("object-store-endpoint", "https://b.example.com")] }

/-- Same annotations and same three endpoint keys as `c2pvA`, but an options
map that additionally carries an unrelated key. -/
def c2pvC : PersistentVolume :=
  { name := "pv1", annotations := c2annots, flexDriver := driverName,
    flexSecretRefName := "s1",
    flexOptions := [("object-store-endpoint", "https://a.example.com"), ("chunk-size-mb", "99")] }

/-- A claim violating policy rule 2 that also carries a malformed numeric. -/
def c7opts : VolumeOptions :=
  { baseOpts with pvcAnnots := { basePvc with autoDeleteBucket := true, chunkSizeMB := "abc" } }

/-- A claim violating policy rule 2 with all other fields well-formed. -/
def c7wopts : VolumeOptions :=
  { baseOpts with pvcAnnots := { basePvc with autoDeleteBucket := true, bucket := "" } }

/-- A request whose class-level endpoint has no scheme. -/
def c8opts : VolumeOptions :=
  { baseOpts with parameters := { baseSc with osEndpoint := "ftp://x" } }

/-- A claim overriding the endpoint with a scheme-less value and carrying a
malformed chunk-size. -/
def c9opts : VolumeOptions :=
  { baseOpts with pvcAnnots := { basePvc with endpoint := "ftp://bad", chunkSizeMB := "abc" } }

/-- A claim with a well-formed but non-numeric chunk-size only. -/
def c9bpvc : PvcAnnotations := { basePvc with chunkSizeMB := "abc" }

/-- A volume-less descriptor with auto-delete disabled, for the C10 witness. -/
def pvNoDelete : PersistentVolume :=
  { name := "pv1", annotations := marshalPVAnnotations { pvc := basePvc, secretNamespace := "ns1" },
    flexDriver := driverName, flexSecretRefName := "s1", flexOptions := [] }

/-- A request disabling validation on a plain explicit-bucket claim. -/
def c6opts : VolumeOptions :=
  { baseOpts with pvcAnnots := { basePvc with validateBucket := "no" } }

end S3fs

namespace S3fs

theorem parseBoolStr_boolStr (b : Bool) : parseBoolStr (boolStr b) = b := by
  cases b <;> rfl

/-- `parse` recovers every field written by `build`: the round-trip of the
persisted PV-annotation descriptor. -/
theorem unmarshal_marshal (a : PvAnnotations) :
    unmarshalPVAnnotations (marshalPVAnnotations a) = a := by
  simp [unmarshalPVAnnotations, marshalPVAnnotations, lookupD, List.lookup, parseBoolStr_boolStr]

/-- An all-digit string beyond the 64-bit range fails conversion, like Go's
`Atoi` (`ErrRange`). -/
theorem atoi_overflow_none : atoi? "99999999999999999999999999" = none := by decide

/-- The largest 64-bit int still converts. -/
theorem atoi_int64_max : atoi? "9223372036854775807" = some 9223372036854775807 := by decide

/-- The smallest 64-bit int still converts. -/
theorem atoi_int64_min : atoi? "-9223372036854775808" = some (-9223372036854775808) := by decide

/-- Just past the largest 64-bit int fails conversion. -/
theorem atoi_int64_max_succ : atoi? "9223372036854775808" = none := by decide

end S3fs

namespace S3fs

theorem valBucket_eq_false_iff (pvc : PvcAnnotations) :
    valBucket pvc = false ↔ (pvc.validateBucket = "no" ∧ pvc.autoCreateBucket = false) := by
  simp [valBucket]

theorem autoCreate_of_valBucket_false {pvc : PvcAnnotations} (h : valBucket pvc = false) :
    pvc.autoCreateBucket = false :=
  ((valBucket_eq_false_iff pvc).1 h).2

theorem resolveBucket_fst_of_autoCreate_false {u : Except String String} {pvc : PvcAnnotations}
    (h : pvc.autoCreateBucket = false) : (resolveBucket u pvc).1 = [] := by
  by_cases hop : (pvc.autoCreateBucket && pvc.objectPath != "") = true
  · simp [resolveBucket, hop]
  · by_cases hd : pvc.autoDeleteBucket = true
    · simp [resolveBucket, hop, hd, h]
    · by_cases hb : (pvc.bucket == "") = true
      · simp [resolveBucket, hop, hd, hb]
      · simp [resolveBucket, hop, hd, hb]

theorem resolveBucket_fst_of_bucket_ne {u : Except String String} {pvc : PvcAnnotations}
    (h : pvc.bucket ≠ "") : (resolveBucket u pvc).1 = [] := by
  by_cases hop : (pvc.autoCreateBucket && pvc.objectPath != "") = true
  · simp [resolveBucket, hop]
  · by_cases hd : pvc.autoDeleteBucket = true
    · by_cases hac : (!pvc.autoCreateBucket) = true
      · simp [resolveBucket, hop, hd, hac]
      · simp [resolveBucket, hop, hd, hac, h]
    · simp [resolveBucket, hop, hd, h]

theorem resolveBucket_uuid_mem {u : Except String String} {pvc : PvcAnnotations}
    (h : Event.uuidNew ∈ (resolveBucket u pvc).1) :
    pvc.autoCreateBucket = true ∧ pvc.bucket = "" := by
  by_cases hac : pvc.autoCreateBucket = true
  · by_cases hb : pvc.bucket = ""
    · exact ⟨hac, hb⟩
    · rw [resolveBucket_fst_of_bucket_ne hb] at h
      simp at h
  · rw [resolveBucket_fst_of_autoCreate_false (Bool.eq_false_iff.2 hac)] at h
    simp at h

theorem resolveBucket_ok_bucket {u : Except String String} {pvc pvc1 : PvcAnnotations}
    {evs : List Event} (h : resolveBucket u pvc = (evs, .ok pvc1)) :
    pvc1 = { pvc with bucket := pvc1.bucket } := by
  by_cases hop : (pvc.autoCreateBucket && pvc.objectPath != "") = true
  · simp [resolveBucket, hop] at h
  · by_cases hd : pvc.autoDeleteBucket = true
    · by_cases hac : (!pvc.autoCreateBucket) = true
      · simp [resolveBucket, hop, hd, hac] at h
      · by_cases hb : (pvc.bucket != "") = true
        · simp [resolveBucket, hop, hd, hac, hb] at h
        · cases hu : u with
          | error e => simp [resolveBucket, hop, hd, hac, hb, hu] at h
          | ok tok =>
            simp [resolveBucket, hop, hd, hac, hb, hu] at h
            obtain ⟨h1, h2⟩ := h
            subst h2
            simp [hd]
    · by_cases hb : (pvc.bucket == "") = true
      · simp [resolveBucket, hop, hd, hb] at h
      · simp [resolveBucket, hop, hd, hb] at h
        obtain ⟨h1, h2⟩ := h
        subst h2
        rfl

theorem resolveBucket_gen {tok : String} {pvc pvc1 : PvcAnnotations} {evs : List Event}
    (hac : pvc.autoCreateBucket = true) (hb : pvc.bucket = "")
    (h : resolveBucket (.ok tok) pvc = (evs, .ok pvc1)) :
    evs = [Event.uuidNew] ∧ pvc1.bucket = autoBucketNamePrefix ++ tok := by
  by_cases hop : pvc.objectPath = ""
  · by_cases hd : pvc.autoDeleteBucket = true
    · simp [resolveBucket, hac, hb, hop, hd] at h
      obtain ⟨h1, h2⟩ := h
      subst h1
      refine ⟨rfl, ?_⟩
      rw [← h2]
    · simp [resolveBucket, hac, hb, hop, hd] at h
  · simp [resolveBucket, hac, hop] at h

theorem resolveBucket_ok_of_no_gen {u : Except String String} {pvc pvc1 : PvcAnnotations}
    {evs : List Event} (h : resolveBucket u pvc = (evs, .ok pvc1))
    (hng : ¬(pvc.autoCreateBucket = true ∧ pvc.bucket = "")) :
    pvc1 = pvc ∧ evs = [] := by
  by_cases hb : pvc.bucket = ""
  · by_cases hac : pvc.autoCreateBucket = true
    · exact absurd ⟨hac, hb⟩ hng
    · by_cases hd : pvc.autoDeleteBucket = true
      · simp [resolveBucket, hac, hd, Bool.eq_false_iff.2 hac] at h
      · by_cases hop : (pvc.autoCreateBucket && pvc.objectPath != "") = true
        · simp [resolveBucket, hop] at h
        · simp [resolveBucket, hop, hd, hb] at h
  · by_cases hop : (pvc.autoCreateBucket && pvc.objectPath != "") = true
    · simp [resolveBucket, hop] at h
    · by_cases hd : pvc.autoDeleteBucket = true
      · by_cases hac : (!pvc.autoCreateBucket) = true
        · simp [resolveBucket, hop, hd, hac] at h
        · simp [resolveBucket, hop, hd, hac, hb] at h
      · simp [resolveBucket, hop, hd, hb] at h
        exact ⟨h.2.symm, h.1⟩

end S3fs

namespace S3fs

theorem overrideInt_ok_props (f v : String) (c n : Int) (h : overrideInt f v c = .ok n) :
    (v = "" → n = c) ∧ (v ≠ "" → atoi? v = some n) := by
  by_cases hv : v = ""
  · simp [overrideInt, hv] at h
    exact ⟨fun _ => h.symm, fun hc => absurd hv hc⟩
  · cases ha : atoi? v with
    | none => simp [overrideInt, hv, ha] at h
    | some m =>
      simp [overrideInt, hv, ha] at h
      exact ⟨fun he => absurd he hv, fun _ => by rw [h]⟩

theorem overrideInt_error_iff (f v : String) (c : Int) :
    overrideInt f v c = .error (.configParse f v) ↔ (v ≠ "" ∧ atoi? v = none) := by
  by_cases hv : v = ""
  · simp [overrideInt, hv]
  · cases ha : atoi? v with
    | none => simp [overrideInt, hv, ha]
    | some m => simp [overrideInt, hv, ha]

theorem overrideInt_ok_of_not_bad (f v : String) (c : Int)
    (h : ¬((v != "") && (atoi? v).isNone) = true) :
    ∃ n, overrideInt f v c = .ok n := by
  by_cases hv : v = ""
  · exact ⟨c, by simp [overrideInt, hv]⟩
  · cases ha : atoi? v with
    | none => exact absurd (by simp [hv, ha]) h
    | some m => exact ⟨m, by simp [overrideInt, hv, ha]⟩

theorem mergeEndpoints_eq (pvc : PvcAnnotations) (sc0 : ScOptions) :
    mergeEndpoints pvc sc0 =
      if !(schemeOK (effectiveOSEndpoint pvc sc0)) then
        .error (.badOSEndpoint (effectiveOSEndpoint pvc sc0))
      else if !(schemeOK (effectiveIAMEndpoint pvc sc0)) then
        .error (.badIAMEndpoint (effectiveIAMEndpoint pvc sc0))
      else .ok { sc0 with osEndpoint := effectiveOSEndpoint pvc sc0,
                          osStorageClass := effectiveRegion pvc sc0,
                          iamEndpoint := effectiveIAMEndpoint pvc sc0 } := by
  unfold mergeEndpoints effectiveOSEndpoint effectiveRegion effectiveIAMEndpoint
  by_cases h1 : (pvc.endpoint != "") = true <;>
  by_cases h2 : (pvc.region != "") = true <;>
  by_cases h3 : (pvc.iamEndpoint != "") = true <;>
  simp [h1, h2, h3]

theorem mergeNumerics_firstBad (pvc : PvcAnnotations) (sc3 : ScOptions) (f s : String)
    (hf : firstBadNumeric pvc = some (f, s)) :
    mergeNumerics pvc sc3 = .error (.configParse f s) := by
  unfold mergeNumerics
  unfold firstBadNumeric at hf
  by_cases hb1 : (pvc.s3fsFuseRetryCount != "" && (atoi? pvc.s3fsFuseRetryCount).isNone) = true
  · rw [if_pos hb1] at hf
    simp only [Option.some.injEq, Prod.mk.injEq] at hf
    obtain ⟨hf1, hf2⟩ := hf
    subst hf1; subst hf2
    simp at hb1
    rw [(overrideInt_error_iff "s3fs-fuse-retry-count" pvc.s3fsFuseRetryCount
          sc3.s3fsFuseRetryCount).2 ⟨hb1.1, hb1.2⟩]
  · rw [if_neg hb1] at hf
    obtain ⟨n1, ho1⟩ := overrideInt_ok_of_not_bad "s3fs-fuse-retry-count"
      pvc.s3fsFuseRetryCount sc3.s3fsFuseRetryCount hb1
    rw [ho1]
    by_cases hb2 : (pvc.chunkSizeMB != "" && (atoi? pvc.chunkSizeMB).isNone) = true
    · rw [if_pos hb2] at hf
      simp only [Option.some.injEq, Prod.mk.injEq] at hf
      obtain ⟨hf1, hf2⟩ := hf
      subst hf1; subst hf2
      simp at hb2
      rw [(overrideInt_error_iff "chunk-size-mb" pvc.chunkSizeMB sc3.chunkSizeMB).2 ⟨hb2.1, hb2.2⟩]
    · rw [if_neg hb2] at hf
      obtain ⟨n2, ho2⟩ := overrideInt_ok_of_not_bad "chunk-size-mb"
        pvc.chunkSizeMB sc3.chunkSizeMB hb2
      rw [ho2]
      by_cases hb3 : (pvc.parallelCount != "" && (atoi? pvc.parallelCount).isNone) = true
      · rw [if_pos hb3] at hf
        simp only [Option.some.injEq, Prod.mk.injEq] at hf
        obtain ⟨hf1, hf2⟩ := hf
        subst hf1; subst hf2
        simp at hb3
        rw [(overrideInt_error_iff "parallel-count" pvc.parallelCount sc3.parallelCount).2
              ⟨hb3.1, hb3.2⟩]
      · rw [if_neg hb3] at hf
        obtain ⟨n3, ho3⟩ := overrideInt_ok_of_not_bad "parallel-count"
          pvc.parallelCount sc3.parallelCount hb3
        rw [ho3]
        by_cases hb4 : (pvc.multiReqMax != "" && (atoi? pvc.multiReqMax).isNone) = true
        · rw [if_pos hb4] at hf
          simp only [Option.some.injEq, Prod.mk.injEq] at hf
          obtain ⟨hf1, hf2⟩ := hf
          subst hf1; subst hf2
          simp at hb4
          rw [(overrideInt_error_iff "multireq-max" pvc.multiReqMax sc3.multiReqMax).2
                ⟨hb4.1, hb4.2⟩]
        · rw [if_neg hb4] at hf
          obtain ⟨n4, ho4⟩ := overrideInt_ok_of_not_bad "multireq-max"
            pvc.multiReqMax sc3.multiReqMax hb4
          rw [ho4]
          by_cases hb5 : (pvc.statCacheSize != "" && (atoi? pvc.statCacheSize).isNone) = true
          · rw [if_pos hb5] at hf
            simp only [Option.some.injEq, Prod.mk.injEq] at hf
            obtain ⟨hf1, hf2⟩ := hf
            subst hf1; subst hf2
            simp at hb5
            rw [(overrideInt_error_iff "stat-cache-size" pvc.statCacheSize sc3.statCacheSize).2
                  ⟨hb5.1, hb5.2⟩]
          · rw [if_neg hb5] at hf
            simp at hf

theorem mergeNumerics_ok_fields (pvc : PvcAnnotations) (sc3 sc4 : ScOptions)
    (h : mergeNumerics pvc sc3 = .ok sc4) :
    sc4.osEndpoint = sc3.osEndpoint ∧ sc4.osStorageClass = sc3.osStorageClass ∧
    sc4.iamEndpoint = sc3.iamEndpoint ∧
    ((pvc.s3fsFuseRetryCount = "" → sc4.s3fsFuseRetryCount = sc3.s3fsFuseRetryCount) ∧
     (pvc.s3fsFuseRetryCount ≠ "" → atoi? pvc.s3fsFuseRetryCount = some sc4.s3fsFuseRetryCount)) ∧
    ((pvc.chunkSizeMB = "" → sc4.chunkSizeMB = sc3.chunkSizeMB) ∧
     (pvc.chunkSizeMB ≠ "" → atoi? pvc.chunkSizeMB = some sc4.chunkSizeMB)) ∧
    ((pvc.parallelCount = "" → sc4.parallelCount = sc3.parallelCount) ∧
     (pvc.parallelCount ≠ "" → atoi? pvc.parallelCount = some sc4.parallelCount)) ∧
    ((pvc.multiReqMax = "" → sc4.multiReqMax = sc3.multiReqMax) ∧
     (pvc.multiReqMax ≠ "" → atoi? pvc.multiReqMax = some sc4.multiReqMax)) ∧
    ((pvc.statCacheSize = "" → sc4.statCacheSize = sc3.statCacheSize) ∧
     (pvc.statCacheSize ≠ "" → atoi? pvc.statCacheSize = some sc4.statCacheSize)) := by
  unfold mergeNumerics at h
  cases ho1 : overrideInt "s3fs-fuse-retry-count" pvc.s3fsFuseRetryCount sc3.s3fsFuseRetryCount with
  | error e => rw [ho1] at h; exact absurd h (by simp)
  | ok n1 =>
  rw [ho1] at h
  cases ho2 : overrideInt "chunk-size-mb" pvc.chunkSizeMB sc3.chunkSizeMB with
  | error e => rw [ho2] at h; exact absurd h (by simp)
  | ok n2 =>
  rw [ho2] at h
  cases ho3 : overrideInt "parallel-count" pvc.parallelCount sc3.parallelCount with
  | error e => rw [ho3] at h; exact absurd h (by simp)
  | ok n3 =>
  rw [ho3] at h
  cases ho4 : overrideInt "multireq-max" pvc.multiReqMax sc3.multiReqMax with
  | error e => rw [ho4] at h; exact absurd h (by simp)
  | ok n4 =>
  rw [ho4] at h
  cases ho5 : overrideInt "stat-cache-size" pvc.statCacheSize sc3.statCacheSize with
  | error e => rw [ho5] at h; exact absurd h (by simp)
  | ok n5 =>
  rw [ho5] at h
  have hs : sc4 = { sc3 with s3fsFuseRetryCount := n1, chunkSizeMB := n2,
                             parallelCount := n3, multiReqMax := n4, statCacheSize := n5 } := by
    dsimp only at h
    by_cases hse : (pvc.statCacheExpireSeconds != "") = true
    · rw [if_pos hse] at h
      cases ha : atoi? pvc.statCacheExpireSeconds with
      | none => rw [ha] at h; exact absurd h (by simp)
      | some n =>
        rw [ha] at h
        dsimp only at h
        by_cases hn : n < 0
        · rw [if_pos hn] at h; exact absurd h (by simp)
        · rw [if_neg hn] at h; exact (Except.ok.inj h).symm
    · rw [if_neg hse] at h; exact (Except.ok.inj h).symm
  subst hs
  refine ⟨rfl, rfl, rfl, ?_, ?_, ?_, ?_, ?_⟩
  · exact overrideInt_ok_props _ _ _ _ ho1
  · exact overrideInt_ok_props _ _ _ _ ho2
  · exact overrideInt_ok_props _ _ _ _ ho3
  · exact overrideInt_ok_props _ _ _ _ ho4
  · exact overrideInt_ok_props _ _ _ _ ho5

theorem mergeConfig_badOS (pvc : PvcAnnotations) (sc0 : ScOptions)
    (h : schemeOK (effectiveOSEndpoint pvc sc0) = false) :
    mergeConfig pvc sc0 = .error (.badOSEndpoint (effectiveOSEndpoint pvc sc0)) := by
  unfold mergeConfig
  rw [mergeEndpoints_eq, h]
  simp

theorem mergeConfig_badIAM (pvc : PvcAnnotations) (sc0 : ScOptions)
    (h1 : schemeOK (effectiveOSEndpoint pvc sc0) = true)
    (h2 : schemeOK (effectiveIAMEndpoint pvc sc0) = false) :
    mergeConfig pvc sc0 = .error (.badIAMEndpoint (effectiveIAMEndpoint pvc sc0)) := by
  unfold mergeConfig
  rw [mergeEndpoints_eq, h1, h2]
  simp

theorem mergeConfig_ok_scheme (pvc : PvcAnnotations) (sc0 sc1 : ScOptions)
    (h : mergeConfig pvc sc0 = .ok sc1) :
    schemeOK (effectiveOSEndpoint pvc sc0) = true ∧
    schemeOK (effectiveIAMEndpoint pvc sc0) = true := by
  by_cases hs1 : schemeOK (effectiveOSEndpoint pvc sc0) = true
  · by_cases hs2 : schemeOK (effectiveIAMEndpoint pvc sc0) = true
    · exact ⟨hs1, hs2⟩
    · rw [mergeConfig_badIAM pvc sc0 hs1 (Bool.eq_false_iff.2 hs2)] at h
      exact absurd h (by simp)
  · rw [mergeConfig_badOS pvc sc0 (Bool.eq_false_iff.2 hs1)] at h
    exact absurd h (by simp)

theorem mergeConfig_ok_numerics (pvc : PvcAnnotations) (sc0 sc1 : ScOptions)
    (h : mergeConfig pvc sc0 = .ok sc1) :
    mergeNumerics pvc { sc0 with osEndpoint := effectiveOSEndpoint pvc sc0,
                                 osStorageClass := effectiveRegion pvc sc0,
                                 iamEndpoint := effectiveIAMEndpoint pvc sc0 } = .ok sc1 := by
  obtain ⟨hs1, hs2⟩ := mergeConfig_ok_scheme pvc sc0 sc1 h
  unfold mergeConfig at h
  rw [mergeEndpoints_eq, hs1, hs2] at h
  simpa using h

theorem mergeConfig_firstBad (pvc : PvcAnnotations) (sc0 : ScOptions) (f s : String)
    (h1 : schemeOK (effectiveOSEndpoint pvc sc0) = true)
    (h2 : schemeOK (effectiveIAMEndpoint pvc sc0) = true)
    (hf : firstBadNumeric pvc = some (f, s)) :
    mergeConfig pvc sc0 = .error (.configParse f s) := by
  unfold mergeConfig
  rw [mergeEndpoints_eq, h1, h2]
  simpa using mergeNumerics_firstBad pvc _ f s hf

end S3fs

namespace S3fs

theorem credsStep_skip (p : IBMS3fsProvisioner) (ns : String) (sc : ScOptions)
    (pvc : PvcAnnotations) (h : valBucket pvc = false) :
    credsStep p ns sc pvc = ([], .ok none) := by
  simp [credsStep, h]

theorem credsStep_ok (p : IBMS3fsProvisioner) (ns : String) (sc : ScOptions)
    (pvc : PvcAnnotations) (creds : ObjectStorageCredentials) (h : valBucket pvc = true)
    (hc : getCredentials p pvc.secretName ns = .ok creds) :
    credsStep p ns sc pvc =
      ([Event.getSecret ns pvc.secretName,
        Event.newSession sc.osEndpoint sc.osStorageClass
          { creds with iamEndpoint := sc.iamEndpoint }],
       .ok (some ({ creds with iamEndpoint := sc.iamEndpoint },
                  p.newObjectStorageSession sc.osEndpoint sc.osStorageClass
                    { creds with iamEndpoint := sc.iamEndpoint }))) := by
  simp [credsStep, h, hc]

theorem credsStep_error (p : IBMS3fsProvisioner) (ns : String) (sc : ScOptions)
    (pvc : PvcAnnotations) (e : String) (h : valBucket pvc = true)
    (hc : getCredentials p pvc.secretName ns = .error e) :
    credsStep p ns sc pvc = ([Event.getSecret ns pvc.secretName], .error (.credentialError e)) := by
  simp [credsStep, h, hc]

theorem credsStep_fst_no_uuid (p : IBMS3fsProvisioner) (ns : String) (sc : ScOptions)
    (pvc : PvcAnnotations) : Event.uuidNew ∉ (credsStep p ns sc pvc).1 := by
  by_cases h : valBucket pvc = true
  · cases hc : getCredentials p pvc.secretName ns <;> simp [credsStep, h, hc]
  · simp [credsStep, h]

theorem createStep_skip (pvc : PvcAnnotations)
    (sessOpt : Option (ObjectStorageCredentials × SessionCalls))
    (hac : pvc.autoCreateBucket = false) : createStep pvc sessOpt = ([], .ok ()) := by
  simp [createStep, hac]

theorem createStep_fst_no_uuid (pvc : PvcAnnotations)
    (sessOpt : Option (ObjectStorageCredentials × SessionCalls)) :
    Event.uuidNew ∉ (createStep pvc sessOpt).1 := by
  by_cases h : pvc.autoCreateBucket = true
  · cases sessOpt with
    | none => simp [createStep, h]
    | some cs =>
      obtain ⟨creds, sess⟩ := cs
      by_cases hk : (creds.apiKey != "" && creds.serviceInstanceID == "") = true
      · simp [createStep, h, hk]
      · rcases hcb : sess.createBucket pvc.bucket with ⟨msg, me⟩
        cases me <;> simp [createStep, h, hk, hcb]
  · simp [createStep, h]

theorem accessStep_fst_no_uuid (pvc : PvcAnnotations)
    (sessOpt : Option (ObjectStorageCredentials × SessionCalls)) :
    Event.uuidNew ∉ (accessStep pvc sessOpt).1 := by
  by_cases h : valBucket pvc = true
  · cases sessOpt with
    | none => simp [accessStep, h]
    | some cs =>
      obtain ⟨creds, sess⟩ := cs
      cases hca : sess.checkBucketAccess pvc.bucket <;> simp [accessStep, h, hca]
  · simp [accessStep, h]

theorem pathStep_skip (pvc : PvcAnnotations)
    (sessOpt : Option (ObjectStorageCredentials × SessionCalls))
    (hop : pvc.objectPath = "") : pathStep pvc sessOpt = ([], .ok ()) := by
  simp [pathStep, hop]

theorem pathStep_fst_no_uuid (pvc : PvcAnnotations)
    (sessOpt : Option (ObjectStorageCredentials × SessionCalls)) :
    Event.uuidNew ∉ (pathStep pvc sessOpt).1 := by
  by_cases h : (pvc.objectPath != "") = true
  · cases sessOpt with
    | none => simp [pathStep, h]
    | some cs =>
      obtain ⟨creds, sess⟩ := cs
      cases hcp : sess.checkObjectPathExistence pvc.bucket pvc.objectPath with
      | error e => simp [pathStep, h, hcp]
      | ok b => cases b <;> simp [pathStep, h, hcp]
  · simp [pathStep, h]

theorem lifecycle_error_creds (p : IBMS3fsProvisioner) (ns : String) (sc : ScOptions)
    (pvc : PvcAnnotations) (e1 : List Event) (e : PError)
    (hc : credsStep p ns sc pvc = (e1, .error e)) :
    lifecycle p ns sc pvc = (e1, .error e) := by
  unfold lifecycle
  rw [hc]

theorem lifecycle_decomp (p : IBMS3fsProvisioner) (ns : String) (sc : ScOptions)
    (pvc : PvcAnnotations) (e1 : List Event)
    (sessOpt : Option (ObjectStorageCredentials × SessionCalls))
    (hc : credsStep p ns sc pvc = (e1, .ok sessOpt)) :
    lifecycle p ns sc pvc =
      match createStep pvc sessOpt with
      | (e2, .error e) => (e1 ++ e2, .error e)
      | (e2, .ok _) =>
        match accessStep pvc sessOpt with
        | (e3, .error e) => (e1 ++ e2 ++ e3, .error e)
        | (e3, .ok _) =>
          match pathStep pvc sessOpt with
          | (e4, r) => (e1 ++ e2 ++ e3 ++ e4, r) := by
  unfold lifecycle
  rw [hc]

theorem lifecycle_fst_no_uuid (p : IBMS3fsProvisioner) (ns : String) (sc : ScOptions)
    (pvc : PvcAnnotations) : Event.uuidNew ∉ (lifecycle p ns sc pvc).1 := by
  rcases hc : credsStep p ns sc pvc with ⟨e1, r1⟩
  have h1 : Event.uuidNew ∉ e1 := by
    have := credsStep_fst_no_uuid p ns sc pvc
    rw [hc] at this
    exact this
  cases r1 with
  | error e =>
    rw [lifecycle_error_creds p ns sc pvc e1 e hc]
    exact h1
  | ok sessOpt =>
    rw [lifecycle_decomp p ns sc pvc e1 sessOpt hc]
    rcases h2e : createStep pvc sessOpt with ⟨e2, r2⟩
    have h2 : Event.uuidNew ∉ e2 := by
      have := createStep_fst_no_uuid pvc sessOpt
      rw [h2e] at this
      exact this
    rcases h3e : accessStep pvc sessOpt with ⟨e3, r3⟩
    have h3 : Event.uuidNew ∉ e3 := by
      have := accessStep_fst_no_uuid pvc sessOpt
      rw [h3e] at this
      exact this
    rcases h4e : pathStep pvc sessOpt with ⟨e4, r4⟩
    have h4 : Event.uuidNew ∉ e4 := by
      have := pathStep_fst_no_uuid pvc sessOpt
      rw [h4e] at this
      exact this
    cases r2 with
    | error e => simp [h1, h2]
    | ok u =>
      cases r3 with
      | error e => simp [h1, h2, h3]
      | ok u =>
        cases r4 <;> simp [h1, h2, h3, h4]

theorem lifecycle_fst_of_valBucket_false (p : IBMS3fsProvisioner) (ns : String)
    (sc : ScOptions) (pvc : PvcAnnotations) (h : valBucket pvc = false) :
    (lifecycle p ns sc pvc).1 = [] := by
  have hac : pvc.autoCreateBucket = false := autoCreate_of_valBucket_false h
  rw [lifecycle_decomp p ns sc pvc [] none (credsStep_skip p ns sc pvc h)]
  rw [createStep_skip pvc none hac]
  by_cases hop : (pvc.objectPath != "") = true
  · simp [accessStep, pathStep, h, hop]
  · simp [accessStep, pathStep, h, hop]

theorem lifecycle_getSecret_mem (p : IBMS3fsProvisioner) (ns : String) (sc : ScOptions)
    (pvc : PvcAnnotations) (h : valBucket pvc = true) :
    Event.getSecret ns pvc.secretName ∈ (lifecycle p ns sc pvc).1 := by
  cases hc : getCredentials p pvc.secretName ns with
  | error e =>
    rw [lifecycle_error_creds p ns sc pvc _ _ (credsStep_error p ns sc pvc e h hc)]
    simp
  | ok creds =>
    rw [lifecycle_decomp p ns sc pvc _ _ (credsStep_ok p ns sc pvc creds h hc)]
    rcases h2e : createStep pvc _ with ⟨e2, r2⟩
    cases r2 with
    | error e => simp
    | ok u =>
      rcases h3e : accessStep pvc _ with ⟨e3, r3⟩
      cases r3 with
      | error e => simp
      | ok u =>
        rcases h4e : pathStep pvc _ with ⟨e4, r4⟩
        simp

theorem Provision_merge_error (p : IBMS3fsProvisioner) (o : VolumeOptions) (e : PError)
    (hm : mergeConfig o.pvcAnnots o.parameters = .error e) :
    Provision p o = ([], .error e) := by
  unfold Provision
  dsimp only
  rw [hm]

theorem Provision_resolve_error (p : IBMS3fsProvisioner) (o : VolumeOptions) (sc1 : ScOptions)
    (evs : List Event) (e : PError)
    (hm : mergeConfig o.pvcAnnots o.parameters = .ok sc1)
    (hr : resolveBucket p.uuidGenerator o.pvcAnnots = (evs, .error e)) :
    Provision p o = (evs, .error e) := by
  unfold Provision
  dsimp only
  rw [hm]
  dsimp only
  rw [hr]

theorem Provision_lifecycle_error (p : IBMS3fsProvisioner) (o : VolumeOptions) (sc1 : ScOptions)
    (evs : List Event) (pvc1 : PvcAnnotations) (evs2 : List Event) (e : PError)
    (hm : mergeConfig o.pvcAnnots o.parameters = .ok sc1)
    (hr : resolveBucket p.uuidGenerator o.pvcAnnots = (evs, .ok pvc1))
    (hl : lifecycle p o.pvcNamespace sc1 pvc1 = (evs2, .error e)) :
    Provision p o = (evs ++ evs2, .error e) := by
  unfold Provision
  dsimp only
  rw [hm]
  dsimp only
  rw [hr]
  dsimp only
  rw [hl]

theorem Provision_ok_build (p : IBMS3fsProvisioner) (o : VolumeOptions) (sc1 : ScOptions)
    (evs : List Event) (pvc1 : PvcAnnotations) (evs2 : List Event) (u : Unit)
    (hm : mergeConfig o.pvcAnnots o.parameters = .ok sc1)
    (hr : resolveBucket p.uuidGenerator o.pvcAnnots = (evs, .ok pvc1))
    (hl : lifecycle p o.pvcNamespace sc1 pvc1 = (evs2, .ok u)) :
    Provision p o = (evs ++ evs2,
      .ok { name := o.pvName,
            annotations := marshalPVAnnotations { pvc := pvc1, secretNamespace := o.pvcNamespace },
            flexDriver := driverName,
            flexSecretRefName := pvc1.secretName,
            flexOptions := marshalDriverOptions sc1 pvc1 }) := by
  unfold Provision
  dsimp only
  rw [hm]
  dsimp only
  rw [hr]
  dsimp only
  rw [hl]

theorem Provision_fst_decomp (p : IBMS3fsProvisioner) (o : VolumeOptions) (sc1 : ScOptions)
    (evs : List Event) (pvc1 : PvcAnnotations)
    (hm : mergeConfig o.pvcAnnots o.parameters = .ok sc1)
    (hr : resolveBucket p.uuidGenerator o.pvcAnnots = (evs, .ok pvc1)) :
    (Provision p o).1 = evs ++ (lifecycle p o.pvcNamespace sc1 pvc1).1 := by
  rcases hl : lifecycle p o.pvcNamespace sc1 pvc1 with ⟨evs2, r2⟩
  cases r2 with
  | error e => rw [Provision_lifecycle_error p o sc1 evs pvc1 evs2 e hm hr hl]
  | ok u => rw [Provision_ok_build p o sc1 evs pvc1 evs2 u hm hr hl]

theorem Provision_uuid_mem (p : IBMS3fsProvisioner) (o : VolumeOptions)
    (h : Event.uuidNew ∈ (Provision p o).1) :
    o.pvcAnnots.autoCreateBucket = true ∧ o.pvcAnnots.bucket = "" := by
  cases hm : mergeConfig o.pvcAnnots o.parameters with
  | error e =>
    rw [Provision_merge_error p o e hm] at h
    simp at h
  | ok sc1 =>
    rcases hr : resolveBucket p.uuidGenerator o.pvcAnnots with ⟨evs, r⟩
    have hevs : Event.uuidNew ∈ evs → Event.uuidNew ∈ (resolveBucket p.uuidGenerator o.pvcAnnots).1 := by
      rw [hr]
      exact id
    cases r with
    | error e =>
      rw [Provision_resolve_error p o sc1 evs e hm hr] at h
      exact resolveBucket_uuid_mem (hevs h)
    | ok pvc1 =>
      rw [Provision_fst_decomp p o sc1 evs pvc1 hm hr] at h
      rcases List.mem_append.1 h with h | h
      · exact resolveBucket_uuid_mem (hevs h)
      · exact absurd h (lifecycle_fst_no_uuid p o.pvcNamespace sc1 pvc1)

end S3fs

namespace S3fs

theorem Delete_eq (p : IBMS3fsProvisioner) (pv : PersistentVolume) :
    Delete p pv =
      (if (unmarshalPVAnnotations pv.annotations).pvc.autoDeleteBucket then
        match deleteBucket p (unmarshalPVAnnotations pv.annotations)
            (lookupD pv.flexOptions "object-store-endpoint")
            (lookupD pv.flexOptions "object-store-storage-class")
            (lookupD pv.flexOptions "iam-endpoint") with
        | (evs, some e) => (evs, some (.cannotDeleteBucket e))
        | (evs, none) => (evs, none)
      else ([], none)) := rfl

theorem Delete_autoDelete_false (p : IBMS3fsProvisioner) (pv : PersistentVolume)
    (h : (unmarshalPVAnnotations pv.annotations).pvc.autoDeleteBucket = false) :
    Delete p pv = ([], none) := by
  rw [Delete_eq p pv, h]
  simp

theorem Delete_fst_nonempty_autoDelete (p : IBMS3fsProvisioner) (pv : PersistentVolume)
    (h : (Delete p pv).1 ≠ []) :
    (unmarshalPVAnnotations pv.annotations).pvc.autoDeleteBucket = true := by
  by_cases hd : (unmarshalPVAnnotations pv.annotations).pvc.autoDeleteBucket = true
  · exact hd
  · rw [Delete_autoDelete_false p pv (Bool.eq_false_iff.2 hd)] at h
    simp at h

theorem deleteBucket_getSecret_mem (p : IBMS3fsProvisioner) (a : PvAnnotations)
    (ev rv ie : String) :
    Event.getSecret a.secretNamespace a.pvc.secretName ∈ (deleteBucket p a ev rv ie).1 := by
  cases hc : getCredentials p a.pvc.secretName a.secretNamespace with
  | error e => simp [deleteBucket, hc]
  | ok creds =>
    cases hdb : (p.newObjectStorageSession ev rv
        { creds with iamEndpoint := ie }).deleteBucket a.pvc.bucket <;>
      simp [deleteBucket, hc, hdb]

theorem deleteBucket_deleteBucket_mem (p : IBMS3fsProvisioner) (a : PvAnnotations)
    (ev rv ie : String) (creds : ObjectStorageCredentials)
    (hc : getCredentials p a.pvc.secretName a.secretNamespace = .ok creds) :
    Event.deleteBucket a.pvc.bucket ∈ (deleteBucket p a ev rv ie).1 := by
  cases hdb : (p.newObjectStorageSession ev rv
      { creds with iamEndpoint := ie }).deleteBucket a.pvc.bucket <;>
    simp [deleteBucket, hc, hdb]

theorem Delete_fst_of_autoDelete (p : IBMS3fsProvisioner) (pv : PersistentVolume)
    (h : (unmarshalPVAnnotations pv.annotations).pvc.autoDeleteBucket = true) :
    (Delete p pv).1 = (deleteBucket p (unmarshalPVAnnotations pv.annotations)
        (lookupD pv.flexOptions "object-store-endpoint")
        (lookupD pv.flexOptions "object-store-storage-class")
        (lookupD pv.flexOptions "iam-endpoint")).1 := by
  rw [Delete_eq p pv, h]
  rcases hdb : deleteBucket p (unmarshalPVAnnotations pv.annotations)
      (lookupD pv.flexOptions "object-store-endpoint")
      (lookupD pv.flexOptions "object-store-storage-class")
      (lookupD pv.flexOptions "iam-endpoint") with ⟨evs, me⟩
  cases me <;> simp

theorem Delete_ext (p : IBMS3fsProvisioner) (pv1 pv2 : PersistentVolume)
    (ha : pv1.annotations = pv2.annotations)
    (h1 : lookupD pv1.flexOptions "object-store-endpoint"
        = lookupD pv2.flexOptions "object-store-endpoint")
    (h2 : lookupD pv1.flexOptions "object-store-storage-class"
        = lookupD pv2.flexOptions "object-store-storage-class")
    (h3 : lookupD pv1.flexOptions "iam-endpoint" = lookupD pv2.flexOptions "iam-endpoint") :
    Delete p pv1 = Delete p pv2 := by
  rw [Delete_eq p pv1, Delete_eq p pv2, ha, h1, h2, h3]

end S3fs

namespace S3fs

theorem valBucket_true_of_autoCreate (pvc : PvcAnnotations) (h : pvc.autoCreateBucket = true) :
    valBucket pvc = true := by
  simp [valBucket, h]

theorem valBucket_update_bucket (pvc : PvcAnnotations) (b : String) :
    valBucket { pvc with bucket := b } = valBucket pvc := rfl

theorem createStep_missingSID (pvc : PvcAnnotations) (creds : ObjectStorageCredentials)
    (sess : SessionCalls) (hac : pvc.autoCreateBucket = true)
    (hk : creds.apiKey ≠ "") (hs : creds.serviceInstanceID = "") :
    createStep pvc (some (creds, sess)) = ([], .error .missingServiceInstanceID) := by
  simp [createStep, hac, hk, hs]

theorem accessStep_ok (pvc : PvcAnnotations) (creds : ObjectStorageCredentials)
    (sess : SessionCalls) (hv : valBucket pvc = true)
    (hca : sess.checkBucketAccess pvc.bucket = none) :
    accessStep pvc (some (creds, sess)) = ([Event.checkBucketAccess pvc.bucket], .ok ()) := by
  simp [accessStep, hv, hca]

theorem accessStep_mem (pvc : PvcAnnotations) (creds : ObjectStorageCredentials)
    (sess : SessionCalls) (hv : valBucket pvc = true) :
    Event.checkBucketAccess pvc.bucket ∈ (accessStep pvc (some (creds, sess))).1 := by
  cases hca : sess.checkBucketAccess pvc.bucket <;> simp [accessStep, hv, hca]

theorem lifecycle_create_error (p : IBMS3fsProvisioner) (ns : String) (sc : ScOptions)
    (pvc : PvcAnnotations) (e1 : List Event)
    (sessOpt : Option (ObjectStorageCredentials × SessionCalls)) (e2 : List Event) (e : PError)
    (hc : credsStep p ns sc pvc = (e1, .ok sessOpt))
    (hcr : createStep pvc sessOpt = (e2, .error e)) :
    lifecycle p ns sc pvc = (e1 ++ e2, .error e) := by
  rw [lifecycle_decomp p ns sc pvc e1 sessOpt hc, hcr]

theorem lifecycle_all_ok (p : IBMS3fsProvisioner) (ns : String) (sc : ScOptions)
    (pvc : PvcAnnotations) (e1 : List Event)
    (sessOpt : Option (ObjectStorageCredentials × SessionCalls))
    (e2 e3 e4 : List Event) (u2 u3 u4 : Unit)
    (hc : credsStep p ns sc pvc = (e1, .ok sessOpt))
    (h2 : createStep pvc sessOpt = (e2, .ok u2))
    (h3 : accessStep pvc sessOpt = (e3, .ok u3))
    (h4 : pathStep pvc sessOpt = (e4, .ok u4)) :
    lifecycle p ns sc pvc = (e1 ++ e2 ++ e3 ++ e4, .ok u4) := by
  rw [lifecycle_decomp p ns sc pvc e1 sessOpt hc, h2, h3, h4]

theorem lifecycle_checkAccess_mem (p : IBMS3fsProvisioner) (ns : String) (sc : ScOptions)
    (pvc : PvcAnnotations) (e1 : List Event)
    (sessOpt : Option (ObjectStorageCredentials × SessionCalls))
    (hc : credsStep p ns sc pvc = (e1, .ok sessOpt))
    (hcr : (createStep pvc sessOpt).2 = .ok ())
    (hmem : Event.checkBucketAccess pvc.bucket ∈ (accessStep pvc sessOpt).1) :
    Event.checkBucketAccess pvc.bucket ∈ (lifecycle p ns sc pvc).1 := by
  rw [lifecycle_decomp p ns sc pvc e1 sessOpt hc]
  rcases h2e : createStep pvc sessOpt with ⟨e2, r2⟩
  rw [h2e] at hcr
  cases r2 with
  | error e => exact absurd hcr (by simp)
  | ok u =>
    rcases h3e : accessStep pvc sessOpt with ⟨e3, r3⟩
    rw [h3e] at hmem
    cases r3 with
    | error e => simp [hmem]
    | ok u3 =>
      rcases h4e : pathStep pvc sessOpt with ⟨e4, r4⟩
      simp [hmem]

theorem resolveBucket_plain (u : Except String String) (pvc : PvcAnnotations)
    (hac : pvc.autoCreateBucket = false) (hd : pvc.autoDeleteBucket = false)
    (hb : pvc.bucket ≠ "") :
    resolveBucket u pvc = ([], .ok pvc) := by
  simp [resolveBucket, hac, hd, hb]

theorem resolveBucket_fst_sub (u : Except String String) (pvc : PvcAnnotations) :
    ∀ e ∈ (resolveBucket u pvc).1, e = Event.uuidNew := by
  by_cases hop : (pvc.autoCreateBucket && pvc.objectPath != "") = true
  · simp [resolveBucket, hop]
  · by_cases hd : pvc.autoDeleteBucket = true
    · by_cases hac : (!pvc.autoCreateBucket) = true
      · simp [resolveBucket, hop, hd, hac]
      · by_cases hb : (pvc.bucket != "") = true
        · simp [resolveBucket, hop, hd, hac, hb]
        · cases hu : u <;> simp [resolveBucket, hop, hd, hac, hb, hu]
    · by_cases hb : (pvc.bucket == "") = true
      · simp [resolveBucket, hop, hd, hb]
      · simp [resolveBucket, hop, hd, hb]

theorem resolveBucket_violation (u : Except String String) (pvc : PvcAnnotations) (e : PError)
    (hv : firstPolicyViolation pvc = some e) :
    resolveBucket u pvc = ([], .error e) := by
  unfold firstPolicyViolation at hv
  by_cases h1 : (pvc.autoCreateBucket && pvc.objectPath != "") = true
  · rw [if_pos h1] at hv
    simp only [Option.some.injEq] at hv
    subst hv
    simp [resolveBucket, h1]
  · rw [if_neg h1] at hv
    by_cases h2 : (pvc.autoDeleteBucket && !pvc.autoCreateBucket) = true
    · rw [if_pos h2] at hv
      simp only [Option.some.injEq] at hv
      subst hv
      simp only [Bool.and_eq_true] at h2
      simp [resolveBucket, h1, h2.1, h2.2]
    · rw [if_neg h2] at hv
      by_cases h3 : (pvc.autoDeleteBucket && pvc.bucket != "") = true
      · rw [if_pos h3] at hv
        simp only [Option.some.injEq] at hv
        subst hv
        simp only [Bool.and_eq_true] at h3
        have hac : (!pvc.autoCreateBucket) = false := by
          by_cases hx : pvc.autoCreateBucket = true
          · simp [hx]
          · exfalso
            apply h2
            simp [h3.1, Bool.eq_false_iff.2 hx]
        simp [resolveBucket, h1, h3.1, h3.2, hac]
      · rw [if_neg h3] at hv
        by_cases h4 : (!pvc.autoDeleteBucket && pvc.bucket == "") = true
        · rw [if_pos h4] at hv
          simp only [Option.some.injEq] at hv
          subst hv
          simp only [Bool.and_eq_true] at h4
          have hd : pvc.autoDeleteBucket = false := by
            simpa using h4.1
          have hb : pvc.bucket = "" := by
            simpa using h4.2
          simp [resolveBucket, h1, hd, hb]
        · rw [if_neg h4] at hv
          simp at hv

theorem firstPolicyViolation_isValidation (pvc : PvcAnnotations) (e : PError)
    (hv : firstPolicyViolation pvc = some e) : e.isValidationError = true := by
  unfold firstPolicyViolation at hv
  by_cases h1 : (pvc.autoCreateBucket && pvc.objectPath != "") = true
  · rw [if_pos h1] at hv
    simp only [Option.some.injEq] at hv
    subst hv
    rfl
  · rw [if_neg h1] at hv
    by_cases h2 : (pvc.autoDeleteBucket && !pvc.autoCreateBucket) = true
    · rw [if_pos h2] at hv
      simp only [Option.some.injEq] at hv
      subst hv
      rfl
    · rw [if_neg h2] at hv
      by_cases h3 : (pvc.autoDeleteBucket && pvc.bucket != "") = true
      · rw [if_pos h3] at hv
        simp only [Option.some.injEq] at hv
        subst hv
        rfl
      · rw [if_neg h3] at hv
        by_cases h4 : (!pvc.autoDeleteBucket && pvc.bucket == "") = true
        · rw [if_pos h4] at hv
          simp only [Option.some.injEq] at hv
          subst hv
          rfl
        · rw [if_neg h4] at hv
          simp at hv

theorem strStartsWith_append (a b : String) : strStartsWith (a ++ b) a = true := by
  have hd : (a ++ b).data = a.data ++ b.data := String.data_append a b
  simp [strStartsWith, hd, List.isPrefixOf_iff_prefix]

end S3fs

namespace S3fs

/-- C4: there is an input passing every policy check — object-path non-empty,
validate-bucket exactly "no", auto-create-bucket false, auto-delete-bucket
false, bucket non-empty — on which `Provision` reaches the object-path
existence check without ever having opened a backend session: the nil
session is dereferenced (the `nilSessionPanic` outcome) after zero
collaborator calls, so the operation is not total on this input. -/
theorem C4_nil_session_on_path_check :
    ∃ (p : IBMS3fsProvisioner) (o : VolumeOptions),
      o.pvcAnnots.objectPath ≠ "" ∧ o.pvcAnnots.validateBucket = "no" ∧
      o.pvcAnnots.autoCreateBucket = false ∧ o.pvcAnnots.autoDeleteBucket = false ∧
      o.pvcAnnots.bucket ≠ "" ∧
      Provision p o = ([], .error .nilSessionPanic) := by
  refine ⟨demoProv,
    { baseOpts with pvcAnnots := { basePvc with validateBucket := "no", objectPath := "p" } }, ?_⟩
  decide

/-- C10: when the persisted descriptor has auto-delete-bucket false, `Delete`
makes no collaborator call at all and returns success; any collaborator call
during `Delete` implies auto-delete-bucket was true; and when it is true the
credential lookup happens and (on successful credential resolution) the
backend bucket-delete call happens. -/
theorem C10_teardown_autoDelete_gate (p : IBMS3fsProvisioner) (pv : PersistentVolume) :
    ((unmarshalPVAnnotations pv.annotations).pvc.autoDeleteBucket = false →
      Delete p pv = ([], none))
    ∧ ((Delete p pv).1 ≠ [] →
      (unmarshalPVAnnotations pv.annotations).pvc.autoDeleteBucket = true)
    ∧ ((unmarshalPVAnnotations pv.annotations).pvc.autoDeleteBucket = true →
      Event.getSecret (unmarshalPVAnnotations pv.annotations).secretNamespace
          (unmarshalPVAnnotations pv.annotations).pvc.secretName ∈ (Delete p pv).1
      ∧ ∀ creds,
          getCredentials p (unmarshalPVAnnotations pv.annotations).pvc.secretName
              (unmarshalPVAnnotations pv.annotations).secretNamespace = .ok creds →
          Event.deleteBucket (unmarshalPVAnnotations pv.annotations).pvc.bucket
            ∈ (Delete p pv).1) := by
  refine ⟨Delete_autoDelete_false p pv, Delete_fst_nonempty_autoDelete p pv, fun h => ⟨?_, ?_⟩⟩
  · rw [Delete_fst_of_autoDelete p pv h]
    exact deleteBucket_getSecret_mem p _ _ _ _
  · intro creds hc
    rw [Delete_fst_of_autoDelete p pv h]
    exact deleteBucket_deleteBucket_mem p _ _ _ _ creds hc

/-- Witness for C10 at a concrete auto-delete-false volume. -/
theorem C10_teardown_autoDelete_gate_witness :
    Delete demoProv pvNoDelete = ([], none) :=
  (C10_teardown_autoDelete_gate demoProv pvNoDelete).1 (by decide)

/-- C8: after merging, a scheme-less effective object-store endpoint makes
`Provision` fail with the ValidationError naming that endpoint and an empty
trace (no credential lookup, no backend call); with the OS endpoint
well-formed, a scheme-less effective IAM endpoint does the same; any string
with one of the two accepted schemes passes the check; and with both
effective endpoints well-formed the endpoint segment resolves successfully. -/
theorem C8_endpoint_scheme_check (p : IBMS3fsProvisioner) (o : VolumeOptions) :
    (schemeOK (effectiveOSEndpoint o.pvcAnnots o.parameters) = false →
      Provision p o =
        ([], .error (.badOSEndpoint (effectiveOSEndpoint o.pvcAnnots o.parameters)))
      ∧ (PError.badOSEndpoint (effectiveOSEndpoint o.pvcAnnots o.parameters)).isValidationError
          = true)
    ∧ (schemeOK (effectiveOSEndpoint o.pvcAnnots o.parameters) = true →
       schemeOK (effectiveIAMEndpoint o.pvcAnnots o.parameters) = false →
      Provision p o =
        ([], .error (.badIAMEndpoint (effectiveIAMEndpoint o.pvcAnnots o.parameters)))
      ∧ (PError.badIAMEndpoint (effectiveIAMEndpoint o.pvcAnnots o.parameters)).isValidationError
          = true)
    ∧ (∀ s : String, strStartsWith s "http://" = true ∨ strStartsWith s "https://" = true →
        schemeOK s = true)
    ∧ (schemeOK (effectiveOSEndpoint o.pvcAnnots o.parameters) = true →
       schemeOK (effectiveIAMEndpoint o.pvcAnnots o.parameters) = true →
      mergeEndpoints o.pvcAnnots o.parameters =
        .ok { o.parameters with
                osEndpoint := effectiveOSEndpoint o.pvcAnnots o.parameters,
                osStorageClass := effectiveRegion o.pvcAnnots o.parameters,
                iamEndpoint := effectiveIAMEndpoint o.pvcAnnots o.parameters }) := by
  refine ⟨fun h => ⟨?_, rfl⟩, fun h1 h2 => ⟨?_, rfl⟩, fun s hs => ?_, fun h1 h2 => ?_⟩
  · exact Provision_merge_error p o _ (mergeConfig_badOS o.pvcAnnots o.parameters h)
  · exact Provision_merge_error p o _ (mergeConfig_badIAM o.pvcAnnots o.parameters h1 h2)
  · rcases hs with hs | hs <;> simp [schemeOK, hs]
  · rw [mergeEndpoints_eq, h1, h2]
    simp

/-- Witness for C8 at a concrete scheme-less class endpoint. -/
theorem C8_endpoint_scheme_check_witness :
    Provision demoProv c8opts = ([], .error (.badOSEndpoint "ftp://x")) := by
  have h := ((C8_endpoint_scheme_check demoProv c8opts).1 (by decide)).1
  exact h.trans (by decide)

/-- C7 as stated is false on the code: an input violating policy rule 2
(auto-delete without auto-create) that also carries a non-numeric chunk-size
string makes `Provision` fail in the earlier configuration-resolution phase
with a ConfigParseError, which is not a ValidationError. -/
theorem C7_counterexample :
    c7opts.pvcAnnots.autoDeleteBucket = true ∧ c7opts.pvcAnnots.autoCreateBucket = false
    ∧ (Provision demoProv c7opts).2 = .error (.configParse "chunk-size-mb" "abc")
    ∧ (PError.configParse "chunk-size-mb" "abc").isValidationError = false := by
  decide

/-- C7 amended: once configuration resolution has succeeded, every input
violating one of the four policy rules makes `Provision` return the
ValidationError of the first violated rule in source order
(object-path/auto-create, auto-delete without auto-create, auto-delete with
explicit bucket, no bucket), with an empty trace: no credential lookup and
no backend call. -/
theorem C7_policy_rules (p : IBMS3fsProvisioner) (o : VolumeOptions) (sc1 : ScOptions)
    (e : PError) (hm : mergeConfig o.pvcAnnots o.parameters = .ok sc1)
    (hv : firstPolicyViolation o.pvcAnnots = some e) :
    Provision p o = ([], .error e) ∧ e.isValidationError = true := by
  refine ⟨?_, firstPolicyViolation_isValidation o.pvcAnnots e hv⟩
  exact Provision_resolve_error p o sc1 [] e hm
    (resolveBucket_violation p.uuidGenerator o.pvcAnnots e hv)

/-- Witness for the amended C7 at a concrete rule-2 violation. -/
theorem C7_policy_rules_witness :
    Provision demoProv c7wopts = ([], .error .autoDeleteWithoutAutoCreate) :=
  (C7_policy_rules demoProv c7wopts baseSc PError.autoDeleteWithoutAutoCreate
    (by decide) (by decide)).1

/-- C9 as stated is false on the code: a claim carrying both a scheme-less
endpoint override and a non-numeric chunk-size fails with the endpoint
ValidationError of the earlier scheme check, not with a ConfigParseError
naming the numeric field. -/
theorem C9_counterexample :
    c9opts.pvcAnnots.chunkSizeMB = "abc" ∧ atoi? "abc" = none
    ∧ (Provision demoProv c9opts).2 = .error (.badOSEndpoint "ftp://bad")
    ∧ (PError.badOSEndpoint "ftp://bad").isConfigParseError = false := by
  decide

/-- C9 amended: override precedence holds for every overridable field of a
successful resolution (claim value wins when non-empty, numeric fields
parsed from the claim string, class value otherwise); and provided the two
endpoint scheme checks pass, the first non-empty non-numeric claim-level
numeric field (in resolution order) fails resolution with the
ConfigParseError naming that field and its value. -/
theorem C9_override_precedence (pvc : PvcAnnotations) (sc0 : ScOptions) :
    (∀ sc1, mergeConfig pvc sc0 = .ok sc1 →
      sc1.osEndpoint = effectiveOSEndpoint pvc sc0
      ∧ sc1.osStorageClass = effectiveRegion pvc sc0
      ∧ sc1.iamEndpoint = effectiveIAMEndpoint pvc sc0
      ∧ ((pvc.s3fsFuseRetryCount = "" → sc1.s3fsFuseRetryCount = sc0.s3fsFuseRetryCount)
         ∧ (pvc.s3fsFuseRetryCount ≠ "" →
             atoi? pvc.s3fsFuseRetryCount = some sc1.s3fsFuseRetryCount))
      ∧ ((pvc.chunkSizeMB = "" → sc1.chunkSizeMB = sc0.chunkSizeMB)
         ∧ (pvc.chunkSizeMB ≠ "" → atoi? pvc.chunkSizeMB = some sc1.chunkSizeMB))
      ∧ ((pvc.parallelCount = "" → sc1.parallelCount = sc0.parallelCount)
         ∧ (pvc.parallelCount ≠ "" → atoi? pvc.parallelCount = some sc1.parallelCount))
      ∧ ((pvc.multiReqMax = "" → sc1.multiReqMax = sc0.multiReqMax)
         ∧ (pvc.multiReqMax ≠ "" → atoi? pvc.multiReqMax = some sc1.multiReqMax))
      ∧ ((pvc.statCacheSize = "" → sc1.statCacheSize = sc0.statCacheSize)
         ∧ (pvc.statCacheSize ≠ "" → atoi? pvc.statCacheSize = some sc1.statCacheSize)))
    ∧ (schemeOK (effectiveOSEndpoint pvc sc0) = true →
       schemeOK (effectiveIAMEndpoint pvc sc0) = true →
       ∀ f s, firstBadNumeric pvc = some (f, s) →
         mergeConfig pvc sc0 = .error (.configParse f s)
         ∧ (PError.configParse f s).isConfigParseError = true) := by
  constructor
  · intro sc1 h
    have hn := mergeConfig_ok_numerics pvc sc0 sc1 h
    have hf := mergeNumerics_ok_fields pvc _ sc1 hn
    simpa using hf
  · intro h1 h2 f s hf
    exact ⟨mergeConfig_firstBad pvc sc0 f s h1 h2 hf, rfl⟩

/-- Witness for the amended C9 at a concrete non-numeric chunk-size. -/
theorem C9_override_precedence_witness :
    mergeConfig c9bpvc baseSc = .error (.configParse "chunk-size-mb" "abc") :=
  ((C9_override_precedence c9bpvc baseSc).2 (by decide) (by decide)
    "chunk-size-mb" "abc" (by decide)).1

/-- C2 as stated is false on the code: two persisted volumes with identical
annotations whose FlexVolume options maps differ in the
object-store-endpoint key make `Delete` open sessions against different
endpoints, so its behavior differs. -/
theorem C2_counterexample :
    c2pvA.annotations = c2pvB.annotations
    ∧ c2pvA.flexOptions ≠ c2pvB.flexOptions
    ∧ Delete demoProv c2pvA ≠ Delete demoProv c2pvB := by
  decide

/-- C2 amended: `Delete` does read the FlexVolume options map back, but only
through the three keys object-store-endpoint, object-store-storage-class and
iam-endpoint: volumes with identical annotations whose options maps agree on
those three keys get identical Delete traces and results. -/
theorem C2_delete_reads_three_option_keys (p : IBMS3fsProvisioner)
    (pv1 pv2 : PersistentVolume)
    (ha : pv1.annotations = pv2.annotations)
    (h1 : lookupD pv1.flexOptions "object-store-endpoint"
        = lookupD pv2.flexOptions "object-store-endpoint")
    (h2 : lookupD pv1.flexOptions "object-store-storage-class"
        = lookupD pv2.flexOptions "object-store-storage-class")
    (h3 : lookupD pv1.flexOptions "iam-endpoint" = lookupD pv2.flexOptions "iam-endpoint") :
    Delete p pv1 = Delete p pv2 :=
  Delete_ext p pv1 pv2 ha h1 h2 h3

/-- Witness for the amended C2 at two concrete volumes agreeing on the three
read-back keys. -/
theorem C2_delete_reads_three_option_keys_witness :
    Delete demoProv c2pvA = Delete demoProv c2pvC :=
  C2_delete_reads_three_option_keys demoProv c2pvA c2pvC (by decide) (by decide)
    (by decide) (by decide)

/-- C3: a generator call can appear in a `Provision` trace only when
auto-create is set and no explicit bucket name was supplied; on every
validated input with auto-create set and empty bucket the generated name is
exactly the literal prefix `tmp-s3fs-` followed by the fresh generator
token (in particular it starts with the prefix), and on every other
validated input the bucket name is left untouched with no generator call. -/
theorem C3_bucket_generation (p : IBMS3fsProvisioner) (o : VolumeOptions) (tok : String)
    (hu : p.uuidGenerator = .ok tok) :
    (Event.uuidNew ∈ (Provision p o).1 →
      o.pvcAnnots.autoCreateBucket = true ∧ o.pvcAnnots.bucket = "")
    ∧ (∀ evs pvc1, resolveBucket p.uuidGenerator o.pvcAnnots = (evs, .ok pvc1) →
        (o.pvcAnnots.autoCreateBucket = true ∧ o.pvcAnnots.bucket = "" →
          evs = [Event.uuidNew] ∧ pvc1.bucket = autoBucketNamePrefix ++ tok
          ∧ strStartsWith pvc1.bucket autoBucketNamePrefix = true)
        ∧ (¬(o.pvcAnnots.autoCreateBucket = true ∧ o.pvcAnnots.bucket = "") →
          pvc1 = o.pvcAnnots ∧ evs = [])) := by
  constructor
  · exact Provision_uuid_mem p o
  · intro evs pvc1 hr
    constructor
    · rintro ⟨hac, hb⟩
      rw [hu] at hr
      obtain ⟨he, hbk⟩ := resolveBucket_gen hac hb hr
      refine ⟨he, hbk, ?_⟩
      rw [hbk]
      exact strStartsWith_append autoBucketNamePrefix tok
    · intro hng
      exact resolveBucket_ok_of_no_gen hr hng

/-- Witness for C3 at the concrete auto-create/auto-delete request. -/
theorem C3_bucket_generation_witness :
    autoPvc1.bucket = autoBucketNamePrefix ++ "u1" :=
  (((C3_bucket_generation demoProv autoOpts "u1" rfl).2 [Event.uuidNew] autoPvc1
    (by decide)).1 (by decide)).2.1

end S3fs

namespace S3fs

/-- C6: `valBucket` is false exactly when the claim's validate-bucket
annotation is exactly "no" and auto-create is false; in that case the whole
`Provision` trace is empty (no credential resolution, no backend call, in
particular no access check); with validate-bucket "no" but auto-create true,
a provisioning that passes resolution and validation still performs the
credential lookup, and — whenever the creation step succeeds — the backend
access check. -/
theorem C6_validate_access_decision (p : IBMS3fsProvisioner) (o : VolumeOptions) :
    (valBucket o.pvcAnnots = false ↔
      (o.pvcAnnots.validateBucket = "no" ∧ o.pvcAnnots.autoCreateBucket = false))
    ∧ (o.pvcAnnots.validateBucket = "no" → o.pvcAnnots.autoCreateBucket = false →
        (Provision p o).1 = [])
    ∧ (o.pvcAnnots.validateBucket = "no" → o.pvcAnnots.autoCreateBucket = true →
      ∀ sc1 evs pvc1, mergeConfig o.pvcAnnots o.parameters = .ok sc1 →
        resolveBucket p.uuidGenerator o.pvcAnnots = (evs, .ok pvc1) →
        Event.getSecret o.pvcNamespace pvc1.secretName ∈ (Provision p o).1
        ∧ (∀ creds, getCredentials p pvc1.secretName o.pvcNamespace = .ok creds →
            (createStep pvc1 (some ({ creds with iamEndpoint := sc1.iamEndpoint },
              p.newObjectStorageSession sc1.osEndpoint sc1.osStorageClass
                { creds with iamEndpoint := sc1.iamEndpoint }))).2 = .ok () →
            Event.checkBucketAccess pvc1.bucket ∈ (Provision p o).1)) := by
  refine ⟨valBucket_eq_false_iff o.pvcAnnots, ?_, ?_⟩
  · intro hno hnac
    cases hm : mergeConfig o.pvcAnnots o.parameters with
    | error e => rw [Provision_merge_error p o e hm]
    | ok sc1 =>
      rcases hr : resolveBucket p.uuidGenerator o.pvcAnnots with ⟨evs, r⟩
      have hevs : evs = [] := by
        have h0 := @resolveBucket_fst_of_autoCreate_false p.uuidGenerator o.pvcAnnots hnac
        rw [hr] at h0
        exact h0
      cases r with
      | error e =>
        rw [Provision_resolve_error p o sc1 evs e hm hr, hevs]
      | ok pvc1 =>
        rw [Provision_fst_decomp p o sc1 evs pvc1 hm hr, hevs]
        have hvb1 : valBucket pvc1 = false := by
          rw [resolveBucket_ok_bucket hr, valBucket_update_bucket]
          exact (valBucket_eq_false_iff o.pvcAnnots).2 ⟨hno, hnac⟩
        rw [lifecycle_fst_of_valBucket_false p o.pvcNamespace sc1 pvc1 hvb1]
        rfl
  · intro hno hac sc1 evs pvc1 hm hr
    have hb1 := resolveBucket_ok_bucket hr
    have hval : valBucket pvc1 = true := by
      rw [hb1, valBucket_update_bucket]
      exact valBucket_true_of_autoCreate o.pvcAnnots hac
    constructor
    · rw [Provision_fst_decomp p o sc1 evs pvc1 hm hr]
      exact List.mem_append_right evs
        (lifecycle_getSecret_mem p o.pvcNamespace sc1 pvc1 hval)
    · intro creds hc hcr
      rw [Provision_fst_decomp p o sc1 evs pvc1 hm hr]
      refine List.mem_append_right evs ?_
      refine lifecycle_checkAccess_mem p o.pvcNamespace sc1 pvc1 _ _
        (credsStep_ok p o.pvcNamespace sc1 pvc1 creds hval hc) hcr ?_
      exact accessStep_mem pvc1 _ _ hval

/-- Witness for C6 at a concrete validation-disabled request: the whole
provisioning trace is empty. -/
theorem C6_validate_access_decision_witness :
    (Provision demoProv c6opts).1 = [] :=
  (C6_validate_access_decision demoProv c6opts).2.1 (by decide) (by decide)

/-- C5: with a secret holding an API-key field but no service-instance-id
field, credential resolution succeeds, returning API-key credentials with an
empty service-instance-id; the missing id is enforced only on the create
path — an auto-create provision fails with the missing-service-instance-id
ValidationError before any bucket-create call — while a validate-access-only
flow (no auto-create, validation enabled, backend access check passing)
completes successfully. -/
theorem C5_missing_sid_deferred (p : IBMS3fsProvisioner) (o : VolumeOptions)
    (secret : Secret) (k : String)
    (hget : p.getSecretFromStore o.pvcNamespace o.pvcAnnots.secretName = .ok secret)
    (hapi : secret.data.lookup SecretAPIKey = some k)
    (hsid : secret.data.lookup SecretServiceInstanceID = none) :
    getCredentials p o.pvcAnnots.secretName o.pvcNamespace =
      .ok { accessKey := "", secretKey := "", apiKey := k, serviceInstanceID := "",
            iamEndpoint := "" }
    ∧ (k ≠ "" → o.pvcAnnots.autoCreateBucket = true →
      ∀ sc1 evs pvc1, mergeConfig o.pvcAnnots o.parameters = .ok sc1 →
        resolveBucket p.uuidGenerator o.pvcAnnots = (evs, .ok pvc1) →
        (Provision p o).2 = .error .missingServiceInstanceID
        ∧ ∀ b, Event.createBucket b ∉ (Provision p o).1)
    ∧ (o.pvcAnnots.autoCreateBucket = false → o.pvcAnnots.autoDeleteBucket = false →
       o.pvcAnnots.bucket ≠ "" → o.pvcAnnots.objectPath = "" →
       valBucket o.pvcAnnots = true →
      ∀ sc1, mergeConfig o.pvcAnnots o.parameters = .ok sc1 →
        (p.newObjectStorageSession sc1.osEndpoint sc1.osStorageClass
          { accessKey := "", secretKey := "", apiKey := k, serviceInstanceID := "",
            iamEndpoint := sc1.iamEndpoint }).checkBucketAccess o.pvcAnnots.bucket = none →
        ∃ pv, (Provision p o).2 = .ok pv) := by
  have hcredA : getCredentials p o.pvcAnnots.secretName o.pvcNamespace =
      .ok { accessKey := "", secretKey := "", apiKey := k, serviceInstanceID := "",
            iamEndpoint := "" } := by
    simp [getCredentials, parseSecret, hget, hapi, hsid]
  refine ⟨hcredA, ?_, ?_⟩
  · intro hk hac sc1 evs pvc1 hm hr
    have hb1 := resolveBucket_ok_bucket hr
    have hval : valBucket pvc1 = true := by
      rw [hb1, valBucket_update_bucket]
      exact valBucket_true_of_autoCreate o.pvcAnnots hac
    have hac1 : pvc1.autoCreateBucket = true := by
      rw [hb1]
      exact hac
    have hsn : pvc1.secretName = o.pvcAnnots.secretName := by
      rw [hb1]
    have hcred1 : getCredentials p pvc1.secretName o.pvcNamespace =
        .ok { accessKey := "", secretKey := "", apiKey := k, serviceInstanceID := "",
              iamEndpoint := "" } := by
      rw [hsn]
      exact hcredA
    have hcs := credsStep_ok p o.pvcNamespace sc1 pvc1 _ hval hcred1
    have hcr := createStep_missingSID pvc1
      { accessKey := "", secretKey := "", apiKey := k, serviceInstanceID := "",
        iamEndpoint := sc1.iamEndpoint }
      (p.newObjectStorageSession sc1.osEndpoint sc1.osStorageClass
        { accessKey := "", secretKey := "", apiKey := k, serviceInstanceID := "",
          iamEndpoint := sc1.iamEndpoint })
      hac1 hk rfl
    have hl := lifecycle_create_error p o.pvcNamespace sc1 pvc1 _ _ _ _ hcs hcr
    have hp := Provision_lifecycle_error p o sc1 evs pvc1 _ _ hm hr hl
    constructor
    · rw [hp]
    · intro b hbmem
      rw [hp] at hbmem
      have hsub : ∀ e ∈ evs, e = Event.uuidNew := by
        have h0 := resolveBucket_fst_sub p.uuidGenerator o.pvcAnnots
        rw [hr] at h0
        exact h0
      simp only [List.mem_append] at hbmem
      rcases hbmem with hbm | hbm
      · exact absurd (hsub _ hbm) (by simp)
      · revert hbm
        simp
  · intro hacF hdF hbne hop hval sc1 hm hca
    have hr : resolveBucket p.uuidGenerator o.pvcAnnots = ([], .ok o.pvcAnnots) :=
      resolveBucket_plain p.uuidGenerator o.pvcAnnots hacF hdF hbne
    have hcs := credsStep_ok p o.pvcNamespace sc1 o.pvcAnnots _ hval hcredA
    have h2 := createStep_skip o.pvcAnnots
      (some ({ accessKey := "", secretKey := "", apiKey := k, serviceInstanceID := "",
               iamEndpoint := sc1.iamEndpoint },
             p.newObjectStorageSession sc1.osEndpoint sc1.osStorageClass
               { accessKey := "", secretKey := "", apiKey := k, serviceInstanceID := "",
                 iamEndpoint := sc1.iamEndpoint })) hacF
    have h3 := accessStep_ok o.pvcAnnots
      { accessKey := "", secretKey := "", apiKey := k, serviceInstanceID := "",
        iamEndpoint := sc1.iamEndpoint }
      (p.newObjectStorageSession sc1.osEndpoint sc1.osStorageClass
        { accessKey := "", secretKey := "", apiKey := k, serviceInstanceID := "",
          iamEndpoint := sc1.iamEndpoint }) hval hca
    have h4 := pathStep_skip o.pvcAnnots
      (some ({ accessKey := "", secretKey := "", apiKey := k, serviceInstanceID := "",
               iamEndpoint := sc1.iamEndpoint },
             p.newObjectStorageSession sc1.osEndpoint sc1.osStorageClass
               { accessKey := "", secretKey := "", apiKey := k, serviceInstanceID := "",
                 iamEndpoint := sc1.iamEndpoint })) hop
    have hl := lifecycle_all_ok p o.pvcNamespace sc1 o.pvcAnnots _ _ _ _ _ _ _ _
      hcs h2 h3 h4
    have hp := Provision_ok_build p o sc1 [] o.pvcAnnots _ _ hm hr hl
    exact ⟨_, by rw [hp]⟩

/-- Witness for C5: credential resolution succeeds without the
service-instance-id, and the auto-create flow stops with the
missing-service-instance-id error. -/
theorem C5_missing_sid_deferred_witness :
    (Provision demoProvNoSID autoOpts).2 = .error .missingServiceInstanceID :=
  ((C5_missing_sid_deferred demoProvNoSID autoOpts demoSecretNoSID "k1"
      (by decide) (by decide) (by decide)).2.1
    (by decide) (by decide) baseSc [Event.uuidNew] autoPvc1 (by decide) (by decide)).1

/-- C1 as stated is false on the code: two provisioning inputs differing only
in the class-level endpoint succeed and attach byte-identical descriptors
(annotations), yet `Delete` behaves differently on the two volumes, because
the endpoint used at teardown is read from the FlexVolume options map, not
reconstructed from the descriptor. -/
theorem C1_counterexample :
    (Provision demoProv c1optsA).2 = .ok (pvOrDummy (Provision demoProv c1optsA).2)
    ∧ (Provision demoProv c1optsB).2 = .ok (pvOrDummy (Provision demoProv c1optsB).2)
    ∧ (pvOrDummy (Provision demoProv c1optsA).2).annotations
      = (pvOrDummy (Provision demoProv c1optsB).2).annotations
    ∧ Delete demoProv (pvOrDummy (Provision demoProv c1optsA).2)
      ≠ Delete demoProv (pvOrDummy (Provision demoProv c1optsB).2) := by
  decide

/-- C1 amended: the descriptor written by a successful `Provision` round-trips
exactly — parsing it recovers the resolved claim annotations together with
the secret namespace, and in particular the secretName, autoDeleteBucket and
the claim-level endpoint, region and iam-endpoint fields — and in general
`parse (build x ns) = (x, ns)`; the effective endpoint, region and IAM
endpoint used at teardown, however, are the three FlexVolume options-map
lookups, not descriptor fields. -/
theorem C1_descriptor_roundtrip (p : IBMS3fsProvisioner) (o : VolumeOptions)
    (pv : PersistentVolume) (h : (Provision p o).2 = .ok pv) :
    (∃ pvc1, unmarshalPVAnnotations pv.annotations =
        { pvc := pvc1, secretNamespace := o.pvcNamespace }
      ∧ pvc1.secretName = o.pvcAnnots.secretName
      ∧ pvc1.autoDeleteBucket = o.pvcAnnots.autoDeleteBucket
      ∧ pvc1.endpoint = o.pvcAnnots.endpoint
      ∧ pvc1.region = o.pvcAnnots.region
      ∧ pvc1.iamEndpoint = o.pvcAnnots.iamEndpoint)
    ∧ (∀ a : PvAnnotations, unmarshalPVAnnotations (marshalPVAnnotations a) = a)
    ∧ ((unmarshalPVAnnotations pv.annotations).pvc.autoDeleteBucket = true →
      (Delete p pv).1 = (deleteBucket p (unmarshalPVAnnotations pv.annotations)
        (lookupD pv.flexOptions "object-store-endpoint")
        (lookupD pv.flexOptions "object-store-storage-class")
        (lookupD pv.flexOptions "iam-endpoint")).1) := by
  refine ⟨?_, unmarshal_marshal, Delete_fst_of_autoDelete p pv⟩
  cases hm : mergeConfig o.pvcAnnots o.parameters with
  | error e =>
    rw [Provision_merge_error p o e hm] at h
    exact absurd h (by simp)
  | ok sc1 =>
    rcases hr : resolveBucket p.uuidGenerator o.pvcAnnots with ⟨evs, r⟩
    cases r with
    | error e =>
      rw [Provision_resolve_error p o sc1 evs e hm hr] at h
      exact absurd h (by simp)
    | ok pvc1 =>
      rcases hl : lifecycle p o.pvcNamespace sc1 pvc1 with ⟨evs2, r2⟩
      cases r2 with
      | error e =>
        rw [Provision_lifecycle_error p o sc1 evs pvc1 evs2 e hm hr hl] at h
        exact absurd h (by simp)
      | ok u =>
        rw [Provision_ok_build p o sc1 evs pvc1 evs2 u hm hr hl] at h
        have hpv := Except.ok.inj h
        refine ⟨pvc1, ?_, ?_, ?_, ?_, ?_, ?_⟩
        · rw [← hpv]
          exact unmarshal_marshal { pvc := pvc1, secretNamespace := o.pvcNamespace }
        · rw [resolveBucket_ok_bucket hr]
        · rw [resolveBucket_ok_bucket hr]
        · rw [resolveBucket_ok_bucket hr]
        · rw [resolveBucket_ok_bucket hr]
        · rw [resolveBucket_ok_bucket hr]

/-- Witness for the amended C1 at a concrete successful provisioning. -/
theorem C1_descriptor_roundtrip_witness :
    (unmarshalPVAnnotations
      (pvOrDummy (Provision demoProv baseOpts).2).annotations).secretNamespace = "ns1" := by
  obtain ⟨pvc1, h1, -, -, -, -, -⟩ := (C1_descriptor_roundtrip demoProv baseOpts
    (pvOrDummy (Provision demoProv baseOpts).2) (by decide)).1
  rw [h1]
  rfl

end S3fs
